import Mathlib

/-!
Shallow embedding of the iview-neu assessment-session backend.

The Python blueprint `blueprints/student_sessions.py` exposes the student flow
(join, start, next question, submit answer, end) over a Supabase-backed store;
`utils/question_generator.py`, `utils/answer_evaluator.py` and
`extensions/llm_core.py` provide generation and evaluation over an external
LLM.  Handlers are embedded here as pure functions on an explicit database
state; external collaborators (LLM backend, JSON parser of the Python standard
library, the storage layer's failure behaviour) are passed in as explicit
oracle values.  JSON-ish values held in `ai_score`/`ai_feedback` columns are
modelled by the `PyVal` universe together with Python truthiness and numeric
coercion; numeric-string `float(...)` coercion and Python booleans are outside
the modelled universe (no code path below produces them).
-/

namespace IviewNeu

/-- Python-ish JSON value universe for the dynamically-typed columns. -/
inductive PyVal where
  | none
  | num (q : ℚ)
  | str (s : String)
  | list (items : List PyVal)
  | dict (fields : List (String × PyVal))

/-- Python truthiness of a `PyVal` (None, 0, "", [] and \x7b\x7d are falsy). -/
def PyVal.truthy : PyVal → Bool
  | .none => false
  | .num q => q != 0
  | .str s => s != ""
  | .list l => !l.isEmpty
  | .dict l => !l.isEmpty

/-- Python `d.get(k)` on a dict (None when absent or when not a dict). -/
def PyVal.get : PyVal → String → PyVal
  | .dict l, k =>
    match l.find? (fun p => p.1 == k) with
    | some p => p.2
    | Option.none => .none
  | _, _ => .none

/-- Python `x is None`. -/
def PyVal.isNone : PyVal → Bool
  | .none => true
  | _ => false

/-- Python `a or b` (value-returning disjunction on truthiness). -/
def pyOr (a b : PyVal) : PyVal := if a.truthy then a else b

/-- Python `float(x)`: succeeds on int/float, raises (modelled as `none`) on
None, lists, dicts and non-numeric strings.  Numeric strings are not produced
by the code paths embedded here and are left out of the model. -/
def pyFloat : PyVal → Option ℚ
  | .num q => some q
  | _ => Option.none

/-- Python `x or 0.0` used as an addend of `sum(...)`: falsy values contribute
0.0, truthy numbers contribute their value, and any other truthy value makes
the surrounding `sum` raise `TypeError` (modelled as `none`). -/
def scalar_or_zero : PyVal → Option ℚ
  | .none => some 0
  | .num q => some q
  | .str s => if s == "" then some 0 else Option.none
  | .list l => if l.isEmpty then some 0 else Option.none
  | .dict l => if l.isEmpty then some 0 else Option.none

/-- Sum of `f` over a list where any `none` (a raised exception) poisons the
whole sum, as a Python `sum(...)` with a raising term would. -/
def sumOpt (f : α → Option ℚ) : List α → Option ℚ
  | [] => some 0
  | a :: rest =>
    match f a, sumOpt f rest with
    | some x, some s => some (x + s)
    | _, _ => Option.none

/-- Python `x or d` for an optional string (None and "" are falsy). -/
def pyOrStr (a : Option String) (d : String) : String :=
  match a with
  | some s => if s == "" then d else s
  | Option.none => d

/-- Python `x or y` on optional naturals (None and 0 are falsy). -/
def pyOrNatOpt (a b : Option ℕ) : Option ℕ :=
  match a with
  | some n => if n == 0 then b else a
  | Option.none => b

/-- Truthiness of an optional id (None and 0 are falsy in Python). -/
def natOptTruthy : Option ℕ → Bool
  | Option.none => false
  | some n => n != 0

/-- Truthiness of an optional string (None and "" are falsy in Python). -/
def strOptTruthy : Option String → Bool
  | Option.none => false
  | some s => s != ""

/-! ## Database rows (storage collaborator state) -/

/-- Row of the `session` table. -/
structure SessionRow where
  session_id : ℕ
  session_type : String
  status : String
  password : Option String
  material_id : Option ℕ
  course_name : Option String
  difficulty_level : Option String
  time_limit : Option ℕ
  session_name : String

/-- Row of the `interviewconfig` table. -/
structure InterviewConfigRow where
  session_id : ℕ
  cv_url : Option String
  jd_url : Option String
  position : Option String
  num_questions : Option ℕ
  time_limit : Option ℕ

/-- Row of the `question` table. -/
structure QuestionRow where
  question_id : ℕ
  session_id : ℕ
  content : String
  keywords : String
  question_type : String
  status : String
  reference_answer : Option String

/-- Row of the `question_interview` table. -/
structure InterviewQuestionRow where
  question_interview_id : ℕ
  session_id : ℕ
  content : String
  keywords : String
  question_type : String
  category : String
  purpose : String
  job_title : String
  question_index : ℕ
  status : String
  reference_answer : Option String
  created_by : Option String

/-- Row of the `studentsession` table. -/
structure StudentSessionRow where
  student_session_id : ℕ
  session_id : ℕ
  student_id : ℕ
  score_total : Option ℚ
  ai_overall_feedback : Option String
  join_time : ℕ

/-- Row of the `studentanswer` table. -/
structure AnswerRow where
  answer_id : ℕ
  student_session_id : ℕ
  question_id : ℕ
  answer_text : String
  ai_score : PyVal
  ai_feedback : PyVal

/-- Row of the `studentanswer_interview` table. -/
structure InterviewAnswerRow where
  answer_id : ℕ
  student_session_id : ℕ
  question_interview_id : ℕ
  answer_text : String
  ai_score : PyVal
  ai_feedback : PyVal

/-- The storage collaborator's state.  `next_id` models the serial id
generator used by inserts; the `airequestlog` table is written inside
`try/except: pass` blocks and observed by no handler, so it is omitted. -/
structure DB where
  sessions : List SessionRow
  interview_configs : List InterviewConfigRow
  questions : List QuestionRow
  interview_questions : List InterviewQuestionRow
  student_sessions : List StudentSessionRow
  answers : List AnswerRow
  interview_answers : List InterviewAnswerRow
  next_id : ℕ

/-- Whether a handler outcome is a success (a 200-equivalent response). -/
def exceptIsOk : Except α β → Bool
  | Except.ok _ => true
  | Except.error _ => false

/-- Client-facing error: HTTP status plus message, as built by the handlers. -/
structure ApiError where
  status : ℕ
  error : String

/-- Supabase `.select(...).eq(id).single().execute()`: raises (here: an error
string propagated to the enclosing `except` block) unless exactly one row
matches. -/
def single? (l : List α) : Except String α :=
  match l with
  | [x] => Except.ok x
  | _ => Except.error "single row expected"

/-- Wrap an internal exception into the handler's catch-all 500 response. -/
def wrap500 (pre : String) : Except String α → Except ApiError α
  | Except.ok a => Except.ok a
  | Except.error e => Except.error ⟨500, pre ++ e⟩

/-! ## join_session (POST /join) -/

/-- Success payload of `join_session`. -/
structure JoinResp where
  student_session_id : ℕ
  message : String

/-- Session status/password validation of `join_session` (source lines
36-49): EXAM sessions must be ready and, when a password is configured
(truthy), it must match; PRACTICE/INTERVIEW sessions must have status
`created` or `ready`.  Returns the error response, if any. -/
def join_checks (session : SessionRow) (password : String) : Option ApiError :=
  if session.session_type == "EXAM" && !(session.status == "ready") then
    some ⟨400, "Session is not ready yet"⟩
  else if session.session_type == "EXAM" && strOptTruthy session.password &&
      !(password == session.password.getD "") then
    some ⟨401, "Invalid password"⟩
  else if (session.session_type == "PRACTICE" ||
        session.session_type == "INTERVIEW") &&
      !(session.status == "created" || session.status == "ready") then
    some ⟨400, "Session is not available"⟩
  else
    Option.none

/-- Lookup-before-insert part of `join_session` (source lines 51-78): return
the first existing `studentsession` row for (session, student), else insert
one with a freshly generated id. -/
def join_core (db : DB) (sid student_id : ℕ) : JoinResp × DB :=
  match db.student_sessions.filter
      (fun r => r.session_id == sid && r.student_id == student_id) with
  | r :: _ =>
    (⟨r.student_session_id, "Already joined this session"⟩, db)
  | [] =>
    let row : StudentSessionRow :=
      ⟨db.next_id, sid, student_id, Option.none, Option.none, 0⟩
    (⟨db.next_id, "Joined session successfully"⟩,
      { db with student_sessions := db.student_sessions ++ [row],
                next_id := db.next_id + 1 })

/-- Embedding of `join_session` from `blueprints/student_sessions.py`
(lines 13-81): validates the session id, loads the session, checks
status/password per session type, then returns the existing
`studentsession` row for (session, student) or inserts a fresh one. -/
def join_session (db : DB) (student_id : ℕ) (session_id : Option ℕ)
    (password : String) : Except ApiError (JoinResp × DB) :=
  if !natOptTruthy session_id then Except.error ⟨400, "Session ID is required"⟩
  else
    let sid := session_id.getD 0
    match wrap500 "Failed to join session: "
        (single? (db.sessions.filter (fun s => s.session_id == sid))) with
    | Except.error e => Except.error e
    | Except.ok session =>
      match join_checks session password with
      | some err => Except.error err
      | Option.none => Except.ok (join_core db sid student_id)

/-- Rows of `studentsession` for one (session, student) pair. -/
def pairRows (db : DB) (sid student_id : ℕ) : List StudentSessionRow :=
  db.student_sessions.filter
    (fun r => r.session_id == sid && r.student_id == student_id)

/-! ## get_next_question (GET /<id>/question) -/

/-- Payload returned when an unanswered question remains; `category` and
`purpose` are present only in the interview payload. -/
structure NextQuestionPayload where
  question_id : ℕ
  question : String
  question_number : ℕ
  total_questions : ℕ
  question_type : String
  category : Option String
  purpose : Option String

/-- Result of `get_next_question`: either a question or a completion signal
(`completed: true`), which the handler returns as a 200, not an error. -/
inductive NextQResp where
  | completed
  | question (p : NextQuestionPayload)

/-- Answered interview question ids for a student session (source 246-252). -/
def answeredInterviewIds (db : DB) (student_session_id : ℕ) : List ℕ :=
  (db.interview_answers.filter
    (fun a => a.student_session_id == student_session_id)).map
    (fun a => a.question_interview_id)

/-- Answered standard question ids for a student session (source 285-286). -/
def answeredStandardIds (db : DB) (student_session_id : ℕ) : List ℕ :=
  (db.answers.filter
    (fun a => a.student_session_id == student_session_id)).map
    (fun a => a.question_id)

/-- Interview questions of a session ordered by ascending `question_index`
(source 254-260, `.order("question_index", desc=False)`); the database sort
is modelled as a stable sort over storage order. -/
def interviewEligible (db : DB) (session_id : ℕ) : List InterviewQuestionRow :=
  List.insertionSort (fun a b => a.question_index ≤ b.question_index)
    (db.interview_questions.filter (fun q => q.session_id == session_id))

/-- Standard questions visible to students: status `approved` or
`answers_approved`, in storage order (source 288-290). -/
def standardEligible (db : DB) (session_id : ℕ) : List QuestionRow :=
  db.questions.filter (fun q => q.session_id == session_id &&
    (q.status == "approved" || q.status == "answers_approved"))

/-- Source 262-265 / 293-296: `unanswered` is `all_questions` filtered against
the answered ids (the filter is skipped when nothing was answered). -/
def unansweredOf (answered : List ℕ) (idOf : α → ℕ) (all : List α) : List α :=
  if !answered.isEmpty then
    all.filter (fun q => !answered.contains (idOf q))
  else all

/-- Embedding of `get_next_question` from `blueprints/student_sessions.py`
(lines 220-319): a pure read returning the first unanswered eligible
question (with 1-based number and total count) or a completion signal. -/
def get_next_question (db : DB) (student_session_id student_id : ℕ) :
    Except ApiError NextQResp :=
  match wrap500 "Failed to get question: "
      (single? (db.student_sessions.filter
        (fun r => r.student_session_id == student_session_id))) with
  | Except.error e => Except.error e
  | Except.ok ss =>
    if !(ss.student_id == student_id) then
      Except.error ⟨403, "Access denied"⟩
    else
      match wrap500 "Failed to get question: "
          (single? (db.sessions.filter
            (fun s => s.session_id == ss.session_id))) with
      | Except.error e => Except.error e
      | Except.ok session =>
        if session.session_type == "INTERVIEW" then
          let answered := answeredInterviewIds db student_session_id
          let all := interviewEligible db ss.session_id
          let unanswered := unansweredOf answered
            (fun q => q.question_interview_id) all
          match unanswered with
          | [] => Except.ok NextQResp.completed
          | q :: _ =>
            Except.ok (NextQResp.question
              ⟨q.question_interview_id, q.content, answered.length + 1,
                all.length, q.question_type, some q.category, some q.purpose⟩)
        else
          let answered := answeredStandardIds db student_session_id
          let all := standardEligible db ss.session_id
          let unanswered := unansweredOf answered (fun q => q.question_id) all
          match unanswered with
          | [] => Except.ok NextQResp.completed
          | q :: _ =>
            Except.ok (NextQResp.question
              ⟨q.question_id, q.content, answered.length + 1, all.length,
                q.question_type, Option.none, Option.none⟩)

/-! ## submit_answer (POST /<id>/answer) -/

/-- Success payload of `submit_answer` (source 402-407 / 477-482). -/
structure SubmitResp where
  answer_id : ℕ
  next_question_available : Bool
  answered_count : ℕ
  total_questions : ℕ

/-- Python dict assignment `d[k] = v` on an assoc-list model whose lookup
takes the first match: overwrite every binding of the key, else append. -/
def assocSetNat (l : List (ℕ × String)) (k : ℕ) (v : String) :
    List (ℕ × String) :=
  if l.any (fun p => p.1 == k) then
    l.map (fun p => if p.1 == k then (p.1, v) else p)
  else l ++ [(k, v)]

/-- Python `d.get(k, default)` on the assoc-list model. -/
def assocGetNat (l : List (ℕ × String)) (k : ℕ) (d : String) : String :=
  match l.find? (fun p => p.1 == k) with
  | some p => p.2
  | Option.none => d

/-- Upsert of the standard `studentanswer` table (source 446-467): update the
existing row in place (new text, score/feedback cleared) or insert a new row.
Returns the answer id, the new table, and the new id counter. -/
def upsertAnswer (rows : List AnswerRow) (existing : Option AnswerRow)
    (ssid qid : ℕ) (answer_text : String) (next_id : ℕ) :
    ℕ × List AnswerRow × ℕ :=
  match existing with
  | some ex =>
    (ex.answer_id,
      rows.map (fun a =>
        if a.answer_id == ex.answer_id then
          { a with answer_text := answer_text, ai_score := PyVal.none,
                   ai_feedback := PyVal.none }
        else a),
      next_id)
  | Option.none =>
    (next_id, rows ++ [⟨next_id, ssid, qid, answer_text,
      PyVal.none, PyVal.none⟩], next_id + 1)

/-- Upsert of the `studentanswer_interview` table (source 376-394). -/
def upsertInterviewAnswer (rows : List InterviewAnswerRow)
    (existing : Option InterviewAnswerRow) (ssid qiid : ℕ)
    (answer_text : String) (next_id : ℕ) :
    ℕ × List InterviewAnswerRow × ℕ :=
  match existing with
  | some ex =>
    (ex.answer_id,
      rows.map (fun a =>
        if a.answer_id == ex.answer_id then
          { a with answer_text := answer_text, ai_score := PyVal.none,
                   ai_feedback := PyVal.none }
        else a),
      next_id)
  | Option.none =>
    (next_id, rows ++ [⟨next_id, ssid, qiid, answer_text,
      PyVal.none, PyVal.none⟩], next_id + 1)

/-- Embedding of `submit_answer` from `blueprints/student_sessions.py`
(lines 322-487).  `refGen` is the outcome of the collaborator call
`generate_reference_answers_for_questions` (a question-id to reference-answer
map, or a raised exception); it is consulted only on the standard PRACTICE
path when the question lacks a reference answer, and a failure there is
swallowed. -/
def submit_answer (db : DB) (refGen : Except String (List (ℕ × String)))
    (student_session_id student_id : ℕ)
    (question_id question_interview_id : Option ℕ) (answer : Option String) :
    Except ApiError (SubmitResp × DB) :=
  if !((natOptTruthy question_id || natOptTruthy question_interview_id) &&
      strOptTruthy answer) then
    Except.error ⟨400, "Question ID and answer are required"⟩
  else
    let answer_text := answer.getD ""
    match wrap500 "Failed to submit answer: "
        (single? (db.student_sessions.filter
          (fun r => r.student_session_id == student_session_id))) with
    | Except.error e => Except.error e
    | Except.ok ss =>
      if !(ss.student_id == student_id) then
        Except.error ⟨403, "Access denied"⟩
      else
        match wrap500 "Failed to submit answer: "
            (single? (db.sessions.filter
              (fun s => s.session_id == ss.session_id))) with
        | Except.error e => Except.error e
        | Except.ok session =>
          if session.session_type == "INTERVIEW" then
            match wrap500 "Failed to submit answer: "
                (single? (db.interview_questions.filter
                  (fun q => question_interview_id ==
                    some q.question_interview_id))) with
            | Except.error e => Except.error e
            | Except.ok question =>
              let existing := (db.interview_answers.filter
                (fun a => a.student_session_id == student_session_id &&
                  question_interview_id ==
                    some a.question_interview_id)).head?
              let u := upsertInterviewAnswer db.interview_answers existing
                student_session_id (question_interview_id.getD 0)
                answer_text db.next_id
              let db2 := { db with interview_answers := u.2.1,
                                   next_id := u.2.2 }
              let answered_count := (db2.interview_answers.filter
                (fun a =>
                  a.student_session_id == student_session_id)).length
              let total_questions := (db2.interview_questions.filter
                (fun q => q.session_id == question.session_id)).length
              Except.ok (⟨u.1, answered_count < total_questions,
                answered_count, total_questions⟩, db2)
          else
            match wrap500 "Failed to submit answer: "
                (single? (db.questions.filter
                  (fun q => question_id == some q.question_id))) with
            | Except.error e => Except.error e
            | Except.ok question =>
              let existing := (db.answers.filter
                (fun a => a.student_session_id == student_session_id &&
                  question_id == some a.question_id)).head?
              -- PRACTICE sessions without a reference answer lazily generate
              -- one (source 424-444); a generation failure is swallowed.
              -- Only the question table can change here.
              let questions1 :=
                if !strOptTruthy question.reference_answer &&
                    session.session_type == "PRACTICE" then
                  match refGen with
                  | Except.ok amap =>
                    let ra := assocGetNat amap (question_id.getD 0) ""
                    if ra != "" then
                      db.questions.map (fun q =>
                        if question_id == some q.question_id then
                          { q with reference_answer := some ra }
                        else q)
                    else db.questions
                  | Except.error _ => db.questions
                else db.questions
              let u := upsertAnswer db.answers existing student_session_id
                (question_id.getD 0) answer_text db.next_id
              let db2 := { db with questions := questions1,
                                   answers := u.2.1, next_id := u.2.2 }
              let answered_count := (db2.answers.filter
                (fun a =>
                  a.student_session_id == student_session_id)).length
              -- note the status filter: only "approved" counts here
              -- (source 474), unlike start/get_next_question
              let total_questions := (db2.questions.filter
                (fun q => q.session_id == question.session_id &&
                  q.status == "approved")).length
              Except.ok (⟨u.1, answered_count < total_questions,
                answered_count, total_questions⟩, db2)

/-- Rows of `studentanswer` for one (student session, question) pair. -/
def answerPairRows (rows : List AnswerRow) (ssid qid : ℕ) : List AnswerRow :=
  rows.filter (fun a => a.student_session_id == ssid && a.question_id == qid)

/-- Rows of `studentanswer_interview` for one (student session, question)
pair. -/
def interviewAnswerPairRows (rows : List InterviewAnswerRow) (ssid qiid : ℕ) :
    List InterviewAnswerRow :=
  rows.filter (fun a => a.student_session_id == ssid &&
    a.question_interview_id == qiid)

/-- Totality of the interview `question_index` ordering. -/
instance : IsTotal InterviewQuestionRow
    (fun a b => a.question_index ≤ b.question_index) :=
  ⟨fun a b => Nat.le_total a.question_index b.question_index⟩

/-- Transitivity of the interview `question_index` ordering. -/
instance : IsTrans InterviewQuestionRow
    (fun a b => a.question_index ≤ b.question_index) :=
  ⟨fun _ _ _ hab hbc => Nat.le_trans hab hbc⟩

/-! ## Concrete example states used by witnesses -/

/-- A PRACTICE session row with id 1, status `created`, no password. -/
def exPracticeSession : SessionRow :=
  ⟨1, "PRACTICE", "created", Option.none, Option.none, some "Algo",
    Option.none, Option.none, "S1"⟩

/-- Example database: one PRACTICE session, nothing else. -/
def exDb0 : DB :=
  ⟨[exPracticeSession], [], [], [], [], [], [], 100⟩

/-- `exDb0` after student 5 joined session 1. -/
def exDb1 : DB :=
  { exDb0 with
    student_sessions := [⟨100, 1, 5, Option.none, Option.none, 0⟩],
    next_id := 101 }

/-! ## start_session (POST /<id>/start) -/

/-- Success payload of `start_session` (source 209-214). -/
structure StartResp where
  student_session_id : ℕ
  session_started : Bool
  total_questions : ℕ
  time_limit : Option ℕ

/-- A question produced by the collaborator
`generate_questions_for_session` (content, keywords, question_type; the
handler overrides status to `approved` and nulls the reference answer before
inserting, source 136-140). -/
structure GenQuestionOut where
  content : String
  keywords : String
  question_type : String

/-- A raw item of the interview question-generation response, as read by
`generate_interview_questions` (question_generator.py 183-198). -/
structure RawInterviewQuestion where
  question : String
  keywords : String
  question_type : String
  category : String
  purpose : String

/-- Collaborator outcomes consumed by `start_session`: the PRACTICE and the
INTERVIEW question-generation calls (each either a list of items or a raised
exception). -/
structure StartOracle where
  genPractice : Except String (List GenQuestionOut)
  genInterview : Except String (List RawInterviewQuestion)

/-- Insert generated PRACTICE questions one by one with status forced to
`approved` and no reference answer (source 136-140). -/
def insertQuestions (db : DB) (sid : ℕ) (qs : List GenQuestionOut) : DB :=
  qs.foldl (fun d q =>
    { d with
      questions := d.questions ++ [⟨d.next_id, sid, q.content, q.keywords,
        q.question_type, "approved", Option.none⟩]
      next_id := d.next_id + 1 }) db

/-- Insert interview questions formatted as in
`generate_interview_questions` (question_generator.py 183-198): ascending
`question_index` equal to the item's position, status `approved`, null
reference answer, and null `created_by` (the creator lookup in the handler
falls back to null, source 171-181). -/
def insertInterviewQuestionsAux (sid : ℕ) (job_title : String) :
    DB → ℕ → List RawInterviewQuestion → DB
  | d, _, [] => d
  | d, idx, q :: rest =>
    insertInterviewQuestionsAux sid job_title
      { d with
        interview_questions := d.interview_questions ++
          [⟨d.next_id, sid, q.question, q.keywords, q.question_type,
            q.category, q.purpose, job_title, idx, "approved",
            Option.none, Option.none⟩]
        next_id := d.next_id + 1 } (idx + 1) rest

/-- Lazy question-generation phase of `start_session` (source 116-190).
Returns the updated store and the interview-config time limit (set only when
interview generation ran).  PRACTICE generation failures are swallowed;
INTERVIEW failures — config missing, generation raising, or no rows after
insert — are fatal 500s, except the missing CV which is a 400 returned
before the generator is ever consulted. -/
def startGenerate (db : DB) (oc : StartOracle) (session : SessionRow) :
    Except ApiError (DB × Option ℕ) :=
  if session.session_type == "PRACTICE" then
    if (db.questions.filter
        (fun q => q.session_id == session.session_id)).isEmpty then
      match oc.genPractice with
      | Except.ok qs =>
        Except.ok (insertQuestions db session.session_id qs, Option.none)
      | Except.error _ => Except.ok (db, Option.none)
    else Except.ok (db, Option.none)
  else if session.session_type == "INTERVIEW" then
    if (db.interview_questions.filter
        (fun q => q.session_id == session.session_id)).isEmpty then
      match single? (db.interview_configs.filter
          (fun c => c.session_id == session.session_id)) with
      | Except.error e =>
        Except.error ⟨500, "Failed to generate interview questions: " ++ e⟩
      | Except.ok config =>
        if !strOptTruthy config.cv_url then
          Except.error ⟨400, "Interview CV is missing"⟩
        else
          match oc.genInterview with
          | Except.error e =>
            Except.error ⟨500,
              "Failed to generate interview questions: " ++ e⟩
          | Except.ok raws =>
            let db1 := insertInterviewQuestionsAux session.session_id
              (pyOrStr config.position (pyOrStr session.course_name ""))
              db 0 raws
            if (db1.interview_questions.filter
                (fun q => q.session_id == session.session_id)).isEmpty then
              Except.error ⟨500, "Failed to generate interview questions"⟩
            else Except.ok (db1, config.time_limit)
    else Except.ok (db, Option.none)
  else Except.ok (db, Option.none)

/-- Embedding of `start_session` from `blueprints/student_sessions.py`
(lines 84-217): ownership and status checks, lazy question generation, then
the eligible-question count (all interview rows; standard rows with status
`approved` or `answers_approved`) and the effective time limit. -/
def start_session (db : DB) (oc : StartOracle)
    (student_session_id student_id : ℕ) :
    Except ApiError (StartResp × DB) :=
  match wrap500 "Failed to start session: "
      (single? (db.student_sessions.filter
        (fun r => r.student_session_id == student_session_id))) with
  | Except.error e => Except.error e
  | Except.ok ss =>
    if !(ss.student_id == student_id) then
      Except.error ⟨403, "Access denied"⟩
    else
      match wrap500 "Failed to start session: "
          (single? (db.sessions.filter
            (fun s => s.session_id == ss.session_id))) with
      | Except.error e => Except.error e
      | Except.ok session =>
        if session.session_type == "EXAM" &&
            !(session.status == "ready") then
          Except.error ⟨400, "Session is not ready"⟩
        else if (session.session_type == "PRACTICE" ||
              session.session_type == "INTERVIEW") &&
            !(session.status == "created" ||
              session.status == "ready") then
          Except.error ⟨400, "Session is not available"⟩
        else
          match startGenerate db oc session with
          | Except.error e => Except.error e
          | Except.ok (db1, interview_time_limit) =>
            let total_questions :=
              if session.session_type == "INTERVIEW" then
                (db1.interview_questions.filter
                  (fun q => q.session_id == session.session_id)).length
              else
                (db1.questions.filter
                  (fun q => q.session_id == session.session_id &&
                    (q.status == "approved" ||
                      q.status == "answers_approved"))).length
            if total_questions == 0 then
              Except.error ⟨400, "No questions available for this session"⟩
            else
              Except.ok (⟨student_session_id, true, total_questions,
                pyOrNatOpt session.time_limit interview_time_limit⟩, db1)

/-- Concrete store for the `getNextQuestion` witness: a PRACTICE session with
an `approved` question 7 (already answered by student session 100) and an
`answers_approved` question 8 (unanswered). -/
def exDbC5 : DB :=
  ⟨[⟨1, "PRACTICE", "created", Option.none, Option.none, some "Algo",
      Option.none, Option.none, "S1"⟩],
   [],
   [⟨7, 1, "Q7", "", "APPLY", "approved", Option.none⟩,
    ⟨8, 1, "Q8", "", "APPLY", "answers_approved", Option.none⟩],
   [],
   [⟨100, 1, 5, Option.none, Option.none, 0⟩],
   [⟨200, 100, 7, "my answer", PyVal.none, PyVal.none⟩],
   [], 300⟩

/-- Concrete store for the submit witness: a PRACTICE session 1 (question 7,
already answered by student session 100) and an INTERVIEW session 2
(question 9, already answered by student session 101), student 5. -/
def exDbC4 : DB :=
  ⟨[⟨1, "PRACTICE", "created", Option.none, Option.none, some "Algo",
      Option.none, Option.none, "S1"⟩,
    ⟨2, "INTERVIEW", "created", Option.none, Option.none, some "Dev",
      Option.none, Option.none, "S2"⟩],
   [],
   [⟨7, 1, "Q7", "", "APPLY", "approved", some "ref"⟩],
   [⟨9, 2, "IQ9", "", "BEHAVIORAL", "tech", "p", "Dev", 0,
      "approved", some "iref", Option.none⟩],
   [⟨100, 1, 5, Option.none, Option.none, 0⟩,
    ⟨101, 2, 5, Option.none, Option.none, 0⟩],
   [⟨200, 100, 7, "old", PyVal.num 5, PyVal.str "fb"⟩],
   [⟨201, 101, 9, "old", PyVal.num 5, PyVal.str "fb"⟩], 300⟩

/-- `exDbC4` after resubmitting the standard answer with new text. -/
def exDbC4std2 : DB :=
  { exDbC4 with
    answers := [⟨200, 100, 7, "new text", PyVal.none, PyVal.none⟩] }

/-- `exDbC4` after resubmitting the interview answer with new text. -/
def exDbC4int2 : DB :=
  { exDbC4 with
    interview_answers :=
      [⟨201, 101, 9, "new text", PyVal.none, PyVal.none⟩] }

/-! ## llm_core (extensions/llm_core.py) -/

/-- Drop leading whitespace characters. -/
def dropWhitespace : List Char → List Char
  | [] => []
  | c :: r => if c.isWhitespace then dropWhitespace r else c :: r

/-- Python `str.strip()`: remove whitespace from both ends. -/
def pyStrip (s : String) : String :=
  String.mk ((dropWhitespace (dropWhitespace s.data).reverse).reverse)

/-- Fence stripping, modelling
`re.sub(r"^(3 backticks)(json)?|(3 backticks)$", "", s, MULTILINE)`:
at a line start a leading fence (with an optional `json` tag, matched
greedily) is removed; elsewhere a fence standing at the end of a line is
removed; every other character is copied.  `atStart` tracks whether the
scanner sits at a line start of the original string, as the regex anchors
refer to original positions. -/
def stripFencesAux : Bool → List Char → List Char
  | true, '`' :: '`' :: '`' :: 'j' :: 's' :: 'o' :: 'n' :: rest =>
    stripFencesAux false rest
  | true, '`' :: '`' :: '`' :: rest => stripFencesAux false rest
  | _, '`' :: '`' :: '`' :: [] => []
  | _, '`' :: '`' :: '`' :: '\n' :: rest => '\n' :: stripFencesAux true rest
  | _, [] => []
  | _, c :: rest => c :: stripFencesAux (c == '\n') rest

/-- Apply the fence-strip scan to a string (scanning starts at a line
start). -/
def stripFences (s : String) : String :=
  String.mk (stripFencesAux true s.data)

/-- Escape repair, modelling
`re.sub(r'(?<!BS)BS(?![BS"])', BS BS, s)` (BS a backslash): a backslash not
preceded by a backslash (in the original string) and not followed by a
backslash or a double quote is doubled. -/
def fixEscapesAux : Option Char → List Char → List Char
  | _, [] => []
  | prev, c :: rest =>
    if c == '\\' && !(prev == some '\\') &&
        (match rest with
         | [] => true
         | d :: _ => !(d == '\\' || d == '"')) then
      '\\' :: '\\' :: fixEscapesAux (some c) rest
    else
      c :: fixEscapesAux (some c) rest

/-- Apply the escape repair to a string. -/
def fixEscapes (s : String) : String :=
  String.mk (fixEscapesAux Option.none s.data)

/-- Embedding of `safe_parse_llm_output` (llm_core.py 23-43): strip fences
from the stripped input, strip again, repair escapes, then parse.  The JSON
parser is the Python standard library — an external collaborator — passed in
as `jsonLoads`. -/
def safe_parse_llm_output {J : Type} (jsonLoads : String → Option J)
    (raw : String) : Except String J :=
  let cleaned := pyStrip (stripFences (pyStrip raw))
  let cleaned2 := fixEscapes cleaned
  match jsonLoads cleaned2 with
  | some v => Except.ok v
  | Option.none => Except.error "Cannot parse LLM output as JSON"

/-- One loop body of `call_llm_json` (llm_core.py 63-69): call the backend,
strip the response, fail on an empty response, else parse.  Any failure is
caught by the retry loop. -/
def attemptLlm {J : Type} (backend : ℕ → Except String String)
    (jsonLoads : String → Option J) (i : ℕ) : Except String J :=
  match backend i with
  | Except.error e => Except.error e
  | Except.ok text =>
    let raw := pyStrip text
    if raw == "" then Except.error "Empty response from LLM"
    else safe_parse_llm_output jsonLoads raw

/-- The retry loop of `call_llm_json` (llm_core.py 61-78): `k` is the number
of remaining attempts, `attempt` the 0-based attempt index.  On failure with
attempts left it sleeps `retry_delay * 2 ^ attempt` (collected in the
returned list) and retries; the final attempt's exception is re-raised
unmodified. -/
def call_llm_json_go {J : Type} (backend : ℕ → Except String String)
    (jsonLoads : String → Option J) (retry_delay : ℚ) :
    ℕ → ℕ → Except String J × List ℚ
  | 0, _ => (Except.error "max_retries was not positive", [])
  | k + 1, attempt =>
    match attemptLlm backend jsonLoads attempt with
    | Except.ok v => (Except.ok v, [])
    | Except.error e =>
      if k == 0 then (Except.error e, [])
      else
        let r := call_llm_json_go backend jsonLoads retry_delay k
          (attempt + 1)
        (r.1, retry_delay * 2 ^ attempt :: r.2)

/-- Embedding of `call_llm_json` (llm_core.py 46-78).  Returns the outcome
together with the list of slept delays. -/
def call_llm_json {J : Type} (backend : ℕ → Except String String)
    (jsonLoads : String → Option J) (max_retries : ℕ := 3)
    (retry_delay : ℚ := 1) : Except String J × List ℚ :=
  call_llm_json_go backend jsonLoads retry_delay max_retries 0

/-- Backend for the retry witness: raises on the first two calls, returns a
fenced JSON array on the third. -/
def exBackend : ℕ → Except String String := fun i =>
  if i == 0 then Except.error "boom0"
  else if i == 1 then Except.error "boom1"
  else Except.ok "```json\n[1, 2]\n```"

/-- Backend that raises on every call. -/
def exBackendFail : ℕ → Except String String := fun i =>
  Except.error ("boom" ++ toString i)

/-- A concrete external JSON parser accepting exactly the array the witness
backend produces. -/
def exJsonLoads : String → Option ℕ := fun s =>
  if s == "[1, 2]" then some 42 else Option.none

/-! ## end_session (POST /<id>/end) -/

/-- Result shape of `evaluate_answer` (utils/answer_evaluator.py 37-102).
The function never raises past its boundary (any internal failure yields the
neutral 5.0 fallback), so the oracle below is total. -/
structure EvalResult where
  scores : List (String × PyVal)
  overall_score : ℚ
  feedback : String
  strengths : List String
  weaknesses : List String

/-- Result shape of `generate_overall_feedback`
(utils/answer_evaluator.py 105-147); also total. -/
structure FeedbackResult where
  overall_feedback : String
  strengths : List String
  weaknesses : List String
  recommendations : List String

/-- One Q&A pair handed to the overall-feedback prompt (source 619-637 /
758-776). -/
structure QAPair where
  question : String
  answer : String
  score : PyVal
  feedback : PyVal

/-- Collaborator outcomes consumed by `end_session`: the batched
reference-answer generation (fallible), the per-answer evaluator and the
overall-feedback generator (total), and the outcome of the final
`studentsession` update — the storage layer may fail there, which the
handler's catch-all turns into a 500.  `evalAnswer` takes question content,
answer text, reference answer, difficulty and session type. -/
structure EndOracle where
  refGen : Except String (List (ℕ × String))
  evalAnswer : String → String → String → String → String → EvalResult
  overallFeedback : List QAPair → List (String × ℚ) → FeedbackResult
  persistFinal : Except String Unit

/-- Success payload of `end_session` (source 658-663 / 796-801); the
completion timestamp is wall-clock noise and not modelled. -/
structure EndResp where
  student_session_id : ℕ
  score_total : ℚ
  ai_overall_feedback : String

/-- Embedding of the local `_overall_from_score` helper (source 608-613):
a dict yields `float(d.get("overall_score") or d.get("overall") or 0.0)`
(`Option.none` models the float() call raising), a number yields itself,
anything else yields 0.0. -/
def _overall_from_score : PyVal → Option ℚ
  | PyVal.dict l =>
    pyFloat (pyOr ((PyVal.dict l).get "overall_score")
      (pyOr ((PyVal.dict l).get "overall") (PyVal.num 0)))
  | PyVal.num q => some q
  | _ => some 0

/-- In-memory state of one answer dict during the `end` handler: the row
fields, the `ai_scores_breakdown` key added by the evaluation loop, whether
a per-answer update was issued (`wrote`), and the payload persisted by that
update (`db_score`/`db_feedback`; on the standard path these equal the
in-memory values, on the interview path the persisted score is a structured
map).  `question_ref` is `question_id` or `question_interview_id` per
path. -/
structure LocalAnswerState where
  answer_id : ℕ
  question_ref : ℕ
  answer_text : String
  ai_score : PyVal
  ai_feedback : PyVal
  breakdown : Option (List (String × PyVal))
  wrote : Bool
  db_score : PyVal
  db_feedback : PyVal

/-- The unevaluated in-memory view of a standard answer row. -/
def AnswerRow.toLocal (a : AnswerRow) : LocalAnswerState :=
  ⟨a.answer_id, a.question_id, a.answer_text, a.ai_score, a.ai_feedback,
    Option.none, false, a.ai_score, a.ai_feedback⟩

/-- The unevaluated in-memory view of an interview answer row. -/
def InterviewAnswerRow.toLocal (a : InterviewAnswerRow) : LocalAnswerState :=
  ⟨a.answer_id, a.question_interview_id, a.answer_text, a.ai_score,
    a.ai_feedback, Option.none, false, a.ai_score, a.ai_feedback⟩

/-- Python dict assignment on a string-keyed assoc list (first-match
lookup): overwrite every binding of the key, else append. -/
def dictSetStr (l : List (String × PyVal)) (k : String) (v : PyVal) :
    List (String × PyVal) :=
  if l.any (fun p => p.1 == k) then
    l.map (fun p => if p.1 == k then (p.1, v) else p)
  else l ++ [(k, v)]

/-- Python `(base dict literal with upd spread)` merge: later keys win. -/
def dictMerge (base upd : List (String × PyVal)) : List (String × PyVal) :=
  upd.foldl (fun acc p => dictSetStr acc p.1 p.2) base

/-- The default reference answer used when a question has none
(source 568 / 716). -/
def noRefAnswer : String :=
  "No reference answer available. Evaluate based on the question and " ++
    "student's answer."

/-- One iteration of the standard evaluation loop (source 710-734): skip
when the question is missing from the fetched dict, else evaluate and
persist the scalar score and feedback string.  Duplicate question ids in the
fetched rows are outside the modelled universe (the Python dict keeps the
last, this model the first). -/
def evalStepStd (oc : EndOracle) (session_type : String)
    (qs : List QuestionRow) (a : AnswerRow) : LocalAnswerState :=
  match qs.find? (fun q => q.question_id == a.question_id) with
  | Option.none => a.toLocal
  | some q =>
    let reference_answer := pyOrStr q.reference_answer noRefAnswer
    let e := oc.evalAnswer q.content a.answer_text reference_answer
      q.question_type session_type
    ⟨a.answer_id, a.question_id, a.answer_text, PyVal.num e.overall_score,
      PyVal.str e.feedback, some e.scores, true, PyVal.num e.overall_score,
      PyVal.str e.feedback⟩

/-- One iteration of the interview evaluation loop (source 563-606): the
persisted `ai_score` is the dict merging `overall_score` with the criteria
scores, the persisted `ai_feedback` a dict of feedback/strengths/weaknesses,
while the in-memory dict keeps the scalar score and feedback string. -/
def evalStepInt (oc : EndOracle) (session_type : String)
    (qs : List InterviewQuestionRow) (a : InterviewAnswerRow) :
    LocalAnswerState :=
  match qs.find? (fun q =>
      q.question_interview_id == a.question_interview_id) with
  | Option.none => a.toLocal
  | some q =>
    let reference_answer := pyOrStr q.reference_answer noRefAnswer
    let e := oc.evalAnswer q.content a.answer_text reference_answer
      q.question_type session_type
    ⟨a.answer_id, a.question_interview_id, a.answer_text,
      PyVal.num e.overall_score, PyVal.str e.feedback, some e.scores, true,
      PyVal.dict (dictMerge [("overall_score", PyVal.num e.overall_score)]
        e.scores),
      PyVal.dict [("feedback", PyVal.str e.feedback),
        ("strengths", PyVal.list (e.strengths.map PyVal.str)),
        ("weaknesses", PyVal.list (e.weaknesses.map PyVal.str))]⟩

/-- Replay the per-answer `update(...).eq("answer_id", ...)` calls issued by
the evaluation loop onto a row table (generic in the row type). -/
def applyEvalWrites {R : Type} (idR : R → ℕ)
    (upd : R → LocalAnswerState → R) (rows : List R)
    (locals : List LocalAnswerState) : List R :=
  locals.foldl (fun acc la =>
    if la.wrote then
      acc.map (fun r => if idR r == la.answer_id then upd r la else r)
    else acc) rows

/-- Pointwise view of the net effect of `applyEvalWrites` on one row (used
to reason about the fold): the row updated by the unique written local
carrying its id, if any. -/
def writeView {R : Type} (idR : R → ℕ) (upd : R → LocalAnswerState → R)
    (locals : List LocalAnswerState) (r : R) : R :=
  match locals.find? (fun la => la.wrote && (idR r == la.answer_id)) with
  | some la => upd r la
  | Option.none => r

/-- The per-answer update on a standard row. -/
def updRowStd (r : AnswerRow) (la : LocalAnswerState) : AnswerRow :=
  { r with ai_score := la.db_score, ai_feedback := la.db_feedback }

/-- The per-answer update on an interview row. -/
def updRowInt (r : InterviewAnswerRow) (la : LocalAnswerState) :
    InterviewAnswerRow :=
  { r with ai_score := la.db_score, ai_feedback := la.db_feedback }

/-- Apply a generated reference-answer map to the standard question table
(source 699-705): only non-empty answers are written, keyed by question
id. -/
def applyRefMapQ (amap : List (ℕ × String)) (qs : List QuestionRow) :
    List QuestionRow :=
  amap.foldl (fun acc p =>
    if p.2 != "" then
      acc.map (fun q => if q.question_id == p.1 then
        { q with reference_answer := some p.2 } else q)
    else acc) qs

/-- Apply a generated reference-answer map to the interview question table
(source 553-559). -/
def applyRefMapIQ (amap : List (ℕ × String))
    (qs : List InterviewQuestionRow) : List InterviewQuestionRow :=
  amap.foldl (fun acc p =>
    if p.2 != "" then
      acc.map (fun q => if q.question_interview_id == p.1 then
        { q with reference_answer := some p.2 } else q)
    else acc) qs

/-- The six fixed feedback criteria (source 620-627 / 760-767). -/
def criteriaList : List String :=
  ["correctness", "coverage", "reasoning", "creativity", "communication",
   "attitude"]

/-- The zero-initialised criteria summary. -/
def initSummary : List (String × ℚ) := criteriaList.map (fun c => (c, 0))

/-- Add one answer's breakdown dict into the running summary: only numeric
values count (source 643-646 / 779-782). -/
def addBreakdown (acc : List (String × ℚ))
    (breakdown : List (String × PyVal)) : List (String × ℚ) :=
  acc.map (fun p =>
    match (PyVal.dict breakdown).get p.1 with
    | PyVal.num q => (p.1, p.2 + q)
    | _ => p)

/-- The breakdown source used on the interview path (source 639-642):
the `ai_scores_breakdown` key if truthy, else the `ai_score` value when it
is a dict, else the empty dict. -/
def interviewBreakdown (breakdown : Option (List (String × PyVal)))
    (ai_score : PyVal) : List (String × PyVal) :=
  let srcTruthy := match breakdown with
    | some l => !l.isEmpty
    | Option.none => false
  if srcTruthy then breakdown.getD []
  else
    match ai_score with
    | PyVal.dict l => l
    | _ => []

/-- Sum the breakdowns and divide by the answer count when non-zero
(source 648-649 / 784-785). -/
def summaryOf (breakdownOf : LocalAnswerState → List (String × PyVal))
    (locals : List LocalAnswerState) (n : ℕ) : List (String × ℚ) :=
  let s := locals.foldl (fun acc la => addBreakdown acc (breakdownOf la))
    initSummary
  if n == 0 then s else s.map (fun p => (p.1, p.2 / n))

/-- Shared tail of the standard `end` path (source 753-801): the overall
score is the sum of `(a.get("ai_score") or 0.0)` over the in-memory answers
divided by their count; then Q&A pairs, criteria summary, overall feedback,
and the final `studentsession` update (whose storage outcome is the
`persistFinal` oracle; on failure the catch-all returns a 500 and the
updated tables are not observed by this model). -/
def endStdFinish (db : DB) (oc : EndOracle) (ssid : ℕ)
    (qs1 : List QuestionRow) (dbQuestions1 : List QuestionRow)
    (locals : List LocalAnswerState) (dbAnswers1 : List AnswerRow) :
    Except ApiError (EndResp × DB) :=
  match sumOpt (fun la => scalar_or_zero la.ai_score) locals with
  | Option.none =>
    Except.error ⟨500, "Failed to end session: unsupported operand type"⟩
  | some total_score =>
    let answered_count := locals.length
    let overall_score : ℚ :=
      if answered_count == 0 then 0 else total_score / answered_count
    let qa_pairs := locals.map (fun la =>
      (⟨(match qs1.find? (fun q => q.question_id == la.question_ref) with
         | some q => q.content
         | Option.none => ""),
        la.answer_text, la.ai_score, la.ai_feedback⟩ : QAPair))
    let scores_summary := summaryOf
      (fun la => la.breakdown.getD []) locals answered_count
    let fb := oc.overallFeedback qa_pairs scores_summary
    match oc.persistFinal with
    | Except.error m => Except.error ⟨500, "Failed to end session: " ++ m⟩
    | Except.ok _ =>
      Except.ok (⟨ssid, overall_score, fb.overall_feedback⟩,
        { db with
          questions := dbQuestions1
          answers := dbAnswers1
          student_sessions := db.student_sessions.map (fun r =>
            if r.student_session_id == ssid then
              { r with
                score_total := some overall_score
                ai_overall_feedback := some fb.overall_feedback }
            else r) })

/-- Shared tail of the interview `end` path (source 608-663): the overall
score extracts each in-memory `ai_score` through `_overall_from_score`
(the Q&A pairs reuse the same extraction, which cannot fail once the sum
succeeded, hence the `getD 0`). -/
def endIntFinish (db : DB) (oc : EndOracle) (ssid : ℕ)
    (qs1 : List InterviewQuestionRow)
    (dbQuestions1 : List InterviewQuestionRow)
    (locals : List LocalAnswerState) (dbAnswers1 : List InterviewAnswerRow) :
    Except ApiError (EndResp × DB) :=
  match sumOpt (fun la => _overall_from_score la.ai_score) locals with
  | Option.none =>
    Except.error ⟨500, "Failed to end session: could not convert to float"⟩
  | some total_score =>
    let answered_count := locals.length
    let overall_score : ℚ :=
      if answered_count == 0 then 0 else total_score / answered_count
    let qa_pairs := locals.map (fun la =>
      (⟨(match qs1.find? (fun q =>
            q.question_interview_id == la.question_ref) with
         | some q => q.content
         | Option.none => ""),
        la.answer_text,
        PyVal.num ((_overall_from_score la.ai_score).getD 0),
        la.ai_feedback⟩ : QAPair))
    let scores_summary := summaryOf
      (fun la => interviewBreakdown la.breakdown la.ai_score)
      locals answered_count
    let fb := oc.overallFeedback qa_pairs scores_summary
    match oc.persistFinal with
    | Except.error m => Except.error ⟨500, "Failed to end session: " ++ m⟩
    | Except.ok _ =>
      Except.ok (⟨ssid, overall_score, fb.overall_feedback⟩,
        { db with
          interview_questions := dbQuestions1
          interview_answers := dbAnswers1
          student_sessions := db.student_sessions.map (fun r =>
            if r.student_session_id == ssid then
              { r with
                score_total := some overall_score
                ai_overall_feedback := some fb.overall_feedback }
            else r) })

/-- Evaluation pass of the standard `end` branch (source 681-751): batch
reference-answer generation (failures swallowed), then the per-answer
evaluation loop with immediate persistence. -/
def end_std_eval (db : DB) (oc : EndOracle) (ssid : ℕ)
    (session : SessionRow) : Except ApiError (EndResp × DB) :=
  let answers0 := db.answers.filter
    (fun a => a.student_session_id == ssid)
  let question_ids := answers0.map (fun a => a.question_id)
  let qs0 := db.questions.filter
    (fun q => question_ids.contains q.question_id)
  let missing := qs0.filter (fun q => !strOptTruthy q.reference_answer)
  let refStep : List QuestionRow × List QuestionRow :=
    if !missing.isEmpty &&
        (session.session_type == "PRACTICE" ||
          session.session_type == "INTERVIEW") then
      match oc.refGen with
      | Except.ok amap =>
        (applyRefMapQ amap qs0, applyRefMapQ amap db.questions)
      | Except.error _ => (qs0, db.questions)
    else (qs0, db.questions)
  let qs1 := refStep.1
  let locals := answers0.map (evalStepStd oc session.session_type qs1)
  let dbAnswers1 := applyEvalWrites (fun r => r.answer_id) updRowStd
    db.answers locals
  endStdFinish db oc ssid qs1 refStep.2 locals dbAnswers1

/-- Standard (PRACTICE/EXAM) branch of `end_session` (source 664-801). -/
def end_std (db : DB) (oc : EndOracle) (ssid : ℕ) (session : SessionRow) :
    Except ApiError (EndResp × DB) :=
  if (db.answers.filter
      (fun a => a.student_session_id == ssid)).isEmpty then
    Except.error ⟨400, "No answers found"⟩
  else if (db.answers.filter (fun a => a.student_session_id == ssid)).any
      (fun a => a.ai_score.isNone) then
    end_std_eval db oc ssid session
  else
    endStdFinish db oc ssid
      (db.questions.filter (fun q =>
        (((db.answers.filter (fun a => a.student_session_id == ssid)).map
          (fun a => a.question_id)).contains q.question_id)))
      db.questions
      ((db.answers.filter (fun a => a.student_session_id == ssid)).map
        AnswerRow.toLocal)
      db.answers

/-- Evaluation pass of the interview `end` branch (source 537-606). -/
def end_int_eval (db : DB) (oc : EndOracle) (ssid : ℕ)
    (session : SessionRow) : Except ApiError (EndResp × DB) :=
  let answers0 := db.interview_answers.filter
    (fun a => a.student_session_id == ssid)
  let question_ids := answers0.map (fun a => a.question_interview_id)
  let qs0 := db.interview_questions.filter
    (fun q => question_ids.contains q.question_interview_id)
  let missing := qs0.filter (fun q => !strOptTruthy q.reference_answer)
  let refStep : List InterviewQuestionRow × List InterviewQuestionRow :=
    if !missing.isEmpty then
      match oc.refGen with
      | Except.ok amap =>
        (applyRefMapIQ amap qs0,
          applyRefMapIQ amap db.interview_questions)
      | Except.error _ => (qs0, db.interview_questions)
    else (qs0, db.interview_questions)
  let qs1 := refStep.1
  let locals := answers0.map (evalStepInt oc session.session_type qs1)
  let dbAnswers1 := applyEvalWrites (fun r => r.answer_id) updRowInt
    db.interview_answers locals
  endIntFinish db oc ssid qs1 refStep.2 locals dbAnswers1

/-- Interview branch of `end_session` (source 514-663): when evaluation is
required the interview config is loaded (a missing CV is a 400), missing
reference answers are generated in one batch (failures swallowed), and each
answer is evaluated and persisted. -/
def end_int (db : DB) (oc : EndOracle) (ssid : ℕ) (session : SessionRow) :
    Except ApiError (EndResp × DB) :=
  if (db.interview_answers.filter
      (fun a => a.student_session_id == ssid)).isEmpty then
    Except.error ⟨400, "No answers found"⟩
  else if (db.interview_answers.filter
      (fun a => a.student_session_id == ssid)).any
      (fun a => a.ai_score.isNone) then
    match single? (db.interview_configs.filter
        (fun c => c.session_id == session.session_id)) with
    | Except.error e =>
      Except.error ⟨500, "Failed to end session: " ++ e⟩
    | Except.ok config =>
      if !strOptTruthy config.cv_url then
        Except.error ⟨400, "Interview CV is missing, cannot evaluate"⟩
      else
        end_int_eval db oc ssid session
  else
    endIntFinish db oc ssid
      (db.interview_questions.filter (fun q =>
        (((db.interview_answers.filter
            (fun a => a.student_session_id == ssid)).map
          (fun a => a.question_interview_id)).contains
            q.question_interview_id)))
      db.interview_questions
      ((db.interview_answers.filter
          (fun a => a.student_session_id == ssid)).map
        InterviewAnswerRow.toLocal)
      db.interview_answers

/-- Embedding of `end_session` from `blueprints/student_sessions.py`
(lines 490-804): ownership check, then the interview or standard
evaluation-and-aggregation flow. -/
def end_session (db : DB) (oc : EndOracle)
    (student_session_id student_id : ℕ) :
    Except ApiError (EndResp × DB) :=
  match wrap500 "Failed to end session: "
      (single? (db.student_sessions.filter
        (fun r => r.student_session_id == student_session_id))) with
  | Except.error e => Except.error e
  | Except.ok ss =>
    if !(ss.student_id == student_id) then
      Except.error ⟨403, "Access denied"⟩
    else
      match wrap500 "Failed to end session: "
          (single? (db.sessions.filter
            (fun s => s.session_id == ss.session_id))) with
      | Except.error e => Except.error e
      | Except.ok session =>
        if session.session_type == "INTERVIEW" then
          end_int db oc student_session_id session
        else
          end_std db oc student_session_id session

/-! ## Reference-answer mapping (utils/question_generator.py) -/

/-- One item of the AI's reference-answer response list, as read by
`generate_reference_answers_for_questions` (349-356) and
`generate_reference_answers_for_interview` (269-276): an optional
`question_index` and an optional `reference_answer` (read with default "").
Indices are modelled as naturals; a negative index from the AI is outside
the modelled universe (in Python it would index from the end of the list or
raise `IndexError`). -/
structure RefAnswerItem where
  question_index : Option ℕ
  reference_answer : Option String

/-- The mapping loop
`for i, answer_data in enumerate(answers): question_index =
answer_data.get("question_index", i); if question_index < len(questions):
answer_map[questions[question_index].id] = ...`: a missing `question_index`
defaults to the item's position `i`; an index ≥ `len(questions)` leaves the
map untouched; a duplicate target key is overwritten (Python dict
assignment). -/
def buildAnswerMapAux {Q : Type} (idOf : Q → ℕ) (questions : List Q) :
    ℕ → List RefAnswerItem → List (ℕ × String) → List (ℕ × String)
  | _, [], acc => acc
  | i, item :: rest, acc =>
    let qi := item.question_index.getD i
    let acc2 :=
      if h : qi < questions.length then
        assocSetNat acc (idOf (questions.get ⟨qi, h⟩))
          (item.reference_answer.getD "")
      else acc
    buildAnswerMapAux idOf questions (i + 1) rest acc2

/-- The whole mapping stage: enumerate from 0 into an empty dict. -/
def buildAnswerMap {Q : Type} (idOf : Q → ℕ) (questions : List Q)
    (answers : List RefAnswerItem) : List (ℕ × String) :=
  buildAnswerMapAux idOf questions 0 answers []

/-- Mapping stage of `generate_reference_answers_for_questions`
(question_generator.py 349-356), over the fetched standard question rows. -/
def generate_reference_answers_map (questions : List QuestionRow)
    (answers : List RefAnswerItem) : List (ℕ × String) :=
  buildAnswerMap (fun q => q.question_id) questions answers

/-- Mapping stage of `generate_reference_answers_for_interview`
(question_generator.py 269-276), over the fetched interview question
rows. -/
def generate_reference_answers_interview_map
    (questions : List InterviewQuestionRow)
    (answers : List RefAnswerItem) : List (ℕ × String) :=
  buildAnswerMap (fun q => q.question_interview_id) questions answers

/-- The mapping the claim describes (for the refutation): only items
carrying an explicit, in-range `question_index` are mapped; an item with a
missing index is skipped. -/
def claimAnswerMap {Q : Type} (idOf : Q → ℕ) (questions : List Q)
    (answers : List RefAnswerItem) : List (ℕ × String) :=
  answers.foldl (fun acc item =>
    match item.question_index with
    | some qi =>
      if h : qi < questions.length then
        assocSetNat acc (idOf (questions.get ⟨qi, h⟩))
          (item.reference_answer.getD "")
      else acc
    | Option.none => acc) []

/-- Store for the `end` counterexample/witness: PRACTICE session 1, student
session 100 of student 5, one already-scored answer. -/
def exDbC1 : DB :=
  ⟨[⟨1, "PRACTICE", "created", Option.none, Option.none, some "Algo",
      Option.none, Option.none, "S1"⟩],
   [],
   [⟨7, 1, "Q7", "", "APPLY", "approved", some "ref"⟩],
   [],
   [⟨100, 1, 5, Option.none, Option.none, 0⟩],
   [⟨200, 100, 7, "ans", PyVal.num 8, PyVal.str "fb"⟩],
   [], 300⟩

/-- An `end` oracle with a fixed benign evaluator and a chosen final-persist
outcome. -/
def exEndOracle (persist : Except String Unit) : EndOracle :=
  ⟨Except.error "gen down",
   fun _ _ _ _ _ => ⟨[("correctness", PyVal.num 6)], 6, "good", [], []⟩,
   fun _ _ => ⟨"overall fb", [], [], []⟩,
   persist⟩

/-- Interview session 3 joined by student 5 (student session 110), with an
interview config lacking `cv_url` and no interview questions yet. -/
def exDbC8a : DB :=
  ⟨[⟨3, "INTERVIEW", "created", Option.none, Option.none, some "Dev",
      Option.none, Option.none, "S3"⟩],
   [⟨3, Option.none, Option.none, some "Dev", some 5, some 30⟩],
   [], [], [⟨110, 3, 5, Option.none, Option.none, 0⟩], [], [], 400⟩

/-- Like `exDbC8a` but the config has a CV url. -/
def exDbC8b : DB :=
  { exDbC8a with
    interview_configs :=
      [⟨3, some "http://cv.pdf", Option.none, some "Dev", some 5, some 30⟩] }

/-- PRACTICE session 1 joined by student 5 (student session 120), no
questions. -/
def exDbC8c : DB :=
  ⟨[exPracticeSession], [], [], [],
   [⟨120, 1, 5, Option.none, Option.none, 0⟩], [], [], 400⟩

/-- An oracle whose interview generator would succeed — used to show the
missing-CV failure happens before generation is consulted. -/
def exOracleOk : StartOracle :=
  ⟨Except.ok [⟨"gen q", "", "APPLY"⟩],
   Except.ok [⟨"gen iq", "", "BEHAVIORAL", "tech", "probe"⟩]⟩

/-- An oracle whose generators raise. -/
def exOracleFail : StartOracle :=
  ⟨Except.error "LLM down", Except.error "LLM down"⟩

/-- `exDbC5` after resubmitting the answer to question 7 (the reference
generation failure is swallowed, so only the answer row changed). -/
def exDbC10 : DB :=
  { exDbC5 with
    answers := [⟨200, 100, 7, "new", PyVal.none, PyVal.none⟩] }

/-- A 16001-character answer text (one character above the cap the spec
describes). -/
def c6LongText : String := String.mk (List.replicate 16001 'a')

/-- The `end` call on the scored concrete store with a benign oracle. -/
def exEndC2 : Except ApiError (EndResp × DB) :=
  end_session exDbC1 (exEndOracle (Except.ok ())) 100 5

/-- Extract the success payload of an `end` call (arbitrary fallback on the
error side). -/
def okEndOf (x : Except ApiError (EndResp × DB)) : EndResp × DB :=
  match x with
  | Except.ok p => p
  | Except.error _ => (⟨0, 0, ""⟩, exDbC1)

/-! ## Theorems -/

/-- Helper: the head of a list, when present, is a member. -/
theorem head?_mem_of {α : Type} {l : List α} {a : α}
    (h : l.head? = some a) : a ∈ l := by
  cases l with
  | nil => cases h
  | cons b t =>
    simp only [List.head?] at h
    injection h with he
    subst he
    exact List.mem_cons_self _ _

/-- Helper: the head of a filtered list is the first element satisfying the
predicate, in the original order. -/
theorem head_filter_first {α : Type} (p : α → Bool) :
    ∀ (l : List α) (x : α) (rest : List α), l.filter p = x :: rest →
      ∃ i, ∃ hi : i < l.length, l.get ⟨i, hi⟩ = x ∧ p x = true ∧
        ∀ j, ∀ hj : j < l.length, j < i → p (l.get ⟨j, hj⟩) = false := by
  intro l
  induction l with
  | nil => intro x rest h; simp [List.filter] at h
  | cons a t ih =>
    intro x rest h
    by_cases hpa : p a
    · rw [List.filter_cons_of_pos hpa] at h
      cases h
      exact ⟨0, by simp, rfl, hpa, fun j hj hj0 => absurd hj0 (Nat.not_lt_zero j)⟩
    · rw [List.filter_cons_of_neg hpa] at h
      obtain ⟨i, hi, hget, hpx, hfirst⟩ := ih x rest h
      refine ⟨i + 1, by simpa using Nat.succ_lt_succ hi, hget, hpx, ?_⟩
      intro j hj hji
      match j with
      | 0 => simpa using hpa
      | j + 1 =>
        exact hfirst j (by simpa using Nat.lt_of_succ_lt_succ hj)
          (Nat.lt_of_succ_lt_succ hji)

/-- Helper: `wrap500` succeeds exactly when the wrapped operation does. -/
theorem wrap500_ok_iff (pre : String) (r : Except String α) (a : α) :
    wrap500 pre r = Except.ok a ↔ r = Except.ok a := by
  cases r <;> simp [wrap500]

/-- Helper: `Nat` boolean equality is symmetric. -/
theorem beq_nat_comm (x y : ℕ) : (x == y) = (y == x) := by
  by_cases h : x = y
  · subst h; rfl
  · simp [h]
    intro hc
    exact h hc.symm

/-- Helper: filtering after an update map that does not change the filtered
fields commutes with the map. -/
theorem filter_map_invariant {α : Type} (g : α → α) (p : α → Bool)
    (l : List α) (hg : ∀ a, p (g a) = p a) :
    (l.map g).filter p = (l.filter p).map g := by
  induction l with
  | nil => rfl
  | cons a t ih =>
    by_cases hpa : p a
    · simp [List.filter_cons, hg, hpa, ih]
    · simp [List.filter_cons, hg, hpa, ih]

/-- Helper: `unansweredOf` is exactly the order-preserving filter. -/
theorem unansweredOf_eq_filter (answered : List ℕ) (idOf : α → ℕ)
    (all : List α) :
    unansweredOf answered idOf all =
      all.filter (fun q => !answered.contains (idOf q)) := by
  unfold unansweredOf
  cases answered with
  | nil => simp
  | cons a t => simp

/-- C5: a successful `getNextQuestion` never returns an already-answered
question: it returns the first unanswered eligible question in retrieval
order (ascending `question_index` for interview — the eligible list is sorted
and a permutation of the session's interview questions — storage order for
standard), numbered `answered_count + 1` with the total eligible count, and
it returns `completed` as a normal success exactly when every eligible
question has been answered. -/
theorem get_next_question_spec
    (db : DB) (ssid stid : ℕ) (ss : StudentSessionRow) (session : SessionRow)
    (resp : NextQResp)
    (hss : single? (db.student_sessions.filter
      (fun r => r.student_session_id == ssid)) = Except.ok ss)
    (hsess : single? (db.sessions.filter
      (fun s => s.session_id == ss.session_id)) = Except.ok session)
    (h : get_next_question db ssid stid = Except.ok resp) :
    (session.session_type == "INTERVIEW" →
      (interviewEligible db ss.session_id).Sorted
        (fun a b => a.question_index ≤ b.question_index) ∧
      (interviewEligible db ss.session_id).Perm
        (db.interview_questions.filter
          (fun q => q.session_id == ss.session_id)) ∧
      (resp = NextQResp.completed ↔
        ∀ q ∈ interviewEligible db ss.session_id,
          (answeredInterviewIds db ssid).contains q.question_interview_id) ∧
      (∀ p, resp = NextQResp.question p →
        ¬ ((answeredInterviewIds db ssid).contains p.question_id = true) ∧
        p.question_number = (answeredInterviewIds db ssid).length + 1 ∧
        p.total_questions = (interviewEligible db ss.session_id).length ∧
        ∃ i, ∃ hi : i < (interviewEligible db ss.session_id).length,
          ((interviewEligible db ss.session_id).get
              ⟨i, hi⟩).question_interview_id = p.question_id ∧
          ∀ j, ∀ hj : j < (interviewEligible db ss.session_id).length,
            j < i → (answeredInterviewIds db ssid).contains
              (((interviewEligible db ss.session_id).get
                ⟨j, hj⟩).question_interview_id))) ∧
    (¬ (session.session_type == "INTERVIEW") = true →
      (resp = NextQResp.completed ↔
        ∀ q ∈ standardEligible db ss.session_id,
          (answeredStandardIds db ssid).contains q.question_id) ∧
      (∀ p, resp = NextQResp.question p →
        ¬ ((answeredStandardIds db ssid).contains p.question_id = true) ∧
        p.question_number = (answeredStandardIds db ssid).length + 1 ∧
        p.total_questions = (standardEligible db ss.session_id).length ∧
        ∃ i, ∃ hi : i < (standardEligible db ss.session_id).length,
          ((standardEligible db ss.session_id).get ⟨i, hi⟩).question_id
            = p.question_id ∧
          ∀ j, ∀ hj : j < (standardEligible db ss.session_id).length,
            j < i → (answeredStandardIds db ssid).contains
              (((standardEligible db ss.session_id).get
                ⟨j, hj⟩).question_id))) := by
  rw [get_next_question, hss] at h
  simp only [wrap500] at h
  by_cases how : ss.student_id == stid
  case neg => rw [if_pos (by simp [how])] at h; cases h
  rw [if_neg (by simp [how]), hsess] at h
  simp only [] at h
  constructor
  · -- interview side
    intro hty
    rw [if_pos hty] at h
    refine ⟨List.sorted_insertionSort _ _, List.perm_insertionSort _ _, ?_⟩
    rcases hu : unansweredOf (answeredInterviewIds db ssid)
        (fun q => q.question_interview_id)
        (interviewEligible db ss.session_id) with _ | ⟨q, rest⟩
    · rw [hu] at h
      cases h
      rw [unansweredOf_eq_filter] at hu
      constructor
      · constructor
        · intro _ q hq
          by_contra hc
          have hmem : q ∈ (interviewEligible db ss.session_id).filter
              (fun q => !(answeredInterviewIds db ssid).contains
                q.question_interview_id) :=
            List.mem_filter.mpr ⟨hq, by simpa using hc⟩
          rw [hu] at hmem
          cases hmem
        · intro _; rfl
      · intro p hp; cases hp
    · rw [hu] at h
      cases h
      rw [unansweredOf_eq_filter] at hu
      have hqmem : q ∈ (interviewEligible db ss.session_id).filter
          (fun q => !(answeredInterviewIds db ssid).contains
            q.question_interview_id) := by rw [hu]; exact List.mem_cons_self _ _
      have hqall := (List.mem_filter.mp hqmem).1
      have hqpred := (List.mem_filter.mp hqmem).2
      constructor
      · constructor
        · intro hcc; cases hcc
        · intro hall
          exact absurd (hall q hqall) (by simpa using hqpred)
      · intro p hp
        cases hp
        obtain ⟨i, hi, hget, hpx, hfirst⟩ := head_filter_first _ _ _ _ hu
        refine ⟨by simpa using hqpred, rfl, rfl, i, hi, by rw [hget], ?_⟩
        intro j hj hji
        have := hfirst j hj hji
        simpa using this
  · -- standard side
    intro hty
    rw [if_neg hty] at h
    rcases hu : unansweredOf (answeredStandardIds db ssid)
        (fun q => q.question_id)
        (standardEligible db ss.session_id) with _ | ⟨q, rest⟩
    · rw [hu] at h
      cases h
      rw [unansweredOf_eq_filter] at hu
      constructor
      · constructor
        · intro _ q hq
          by_contra hc
          have hmem : q ∈ (standardEligible db ss.session_id).filter
              (fun q => !(answeredStandardIds db ssid).contains
                q.question_id) :=
            List.mem_filter.mpr ⟨hq, by simpa using hc⟩
          rw [hu] at hmem
          cases hmem
        · intro _; rfl
      · intro p hp; cases hp
    · rw [hu] at h
      cases h
      rw [unansweredOf_eq_filter] at hu
      have hqmem : q ∈ (standardEligible db ss.session_id).filter
          (fun q => !(answeredStandardIds db ssid).contains q.question_id) :=
        by rw [hu]; exact List.mem_cons_self _ _
      have hqall := (List.mem_filter.mp hqmem).1
      have hqpred := (List.mem_filter.mp hqmem).2
      constructor
      · constructor
        · intro hcc; cases hcc
        · intro hall
          exact absurd (hall q hqall) (by simpa using hqpred)
      · intro p hp
        cases hp
        obtain ⟨i, hi, hget, hpx, hfirst⟩ := head_filter_first _ _ _ _ hu
        refine ⟨by simpa using hqpred, rfl, rfl, i, hi, by rw [hget], ?_⟩
        intro j hj hji
        have := hfirst j hj hji
        simpa using this

/-- C5 witness: on the concrete store, the returned question is 8 (the
unanswered one), numbered 2 of 2, and every earlier eligible question is
answered. -/
theorem get_next_question_spec_witness :
    ¬ ((answeredStandardIds exDbC5 100).contains 8 = true) ∧
    (2 : ℕ) = (answeredStandardIds exDbC5 100).length + 1 ∧
    (2 : ℕ) = (standardEligible exDbC5 1).length ∧
    ∃ i, ∃ hi : i < (standardEligible exDbC5 1).length,
      ((standardEligible exDbC5 1).get ⟨i, hi⟩).question_id = 8 ∧
      ∀ j, ∀ hj : j < (standardEligible exDbC5 1).length, j < i →
        (answeredStandardIds exDbC5 100).contains
          (((standardEligible exDbC5 1).get ⟨j, hj⟩).question_id) :=
  (get_next_question_spec exDbC5 100 5
      ⟨100, 1, 5, Option.none, Option.none, 0⟩
      ⟨1, "PRACTICE", "created", Option.none, Option.none, some "Algo",
        Option.none, Option.none, "S1"⟩
      (NextQResp.question ⟨8, "Q8", 2, 2, "APPLY", Option.none, Option.none⟩)
      (by rfl) (by rfl) (by rfl)).2 (by decide) |>.2
    ⟨8, "Q8", 2, 2, "APPLY", Option.none, Option.none⟩ rfl

/-- C4: a second `submitAnswer` for the same (student session, question) pair
updates the existing row in place — no second row is created, the table size
is unchanged, the pair's unique row keeps its answer id, carries the new
text, and has `ai_score`/`ai_feedback` cleared to null — on both the standard
(`studentanswer`) and the interview (`studentanswer_interview`) tables; the
row count of every (session, question) pair is preserved. -/
theorem submit_answer_upsert :
    (∀ (db : DB) (refGen : Except String (List (ℕ × String)))
        (ssid stid qid : ℕ) (txt : String) (ss : StudentSessionRow)
        (session : SessionRow) (ex : AnswerRow)
        (resp : SubmitResp) (db2 : DB),
      single? (db.student_sessions.filter
        (fun r => r.student_session_id == ssid)) = Except.ok ss →
      single? (db.sessions.filter
        (fun s => s.session_id == ss.session_id)) = Except.ok session →
      ¬ ((session.session_type == "INTERVIEW") = true) →
      db.answers.filter (fun a => a.student_session_id == ssid &&
        some qid == some a.question_id) = [ex] →
      submit_answer db refGen ssid stid (some qid) Option.none (some txt) =
        Except.ok (resp, db2) →
      resp.answer_id = ex.answer_id ∧
      db2.answers.length = db.answers.length ∧
      answerPairRows db2.answers ssid qid =
        [{ ex with
            answer_text := txt
            ai_score := PyVal.none
            ai_feedback := PyVal.none }] ∧
      (∀ s q, (answerPairRows db2.answers s q).length =
        (answerPairRows db.answers s q).length)) ∧
    (∀ (db : DB) (refGen : Except String (List (ℕ × String)))
        (ssid stid qiid : ℕ) (txt : String) (ss : StudentSessionRow)
        (session : SessionRow) (ex : InterviewAnswerRow)
        (resp : SubmitResp) (db2 : DB),
      single? (db.student_sessions.filter
        (fun r => r.student_session_id == ssid)) = Except.ok ss →
      single? (db.sessions.filter
        (fun s => s.session_id == ss.session_id)) = Except.ok session →
      (session.session_type == "INTERVIEW") = true →
      db.interview_answers.filter (fun a => a.student_session_id == ssid &&
        some qiid == some a.question_interview_id) = [ex] →
      submit_answer db refGen ssid stid Option.none (some qiid) (some txt) =
        Except.ok (resp, db2) →
      resp.answer_id = ex.answer_id ∧
      db2.interview_answers.length = db.interview_answers.length ∧
      interviewAnswerPairRows db2.interview_answers ssid qiid =
        [{ ex with
            answer_text := txt
            ai_score := PyVal.none
            ai_feedback := PyVal.none }] ∧
      (∀ s q, (interviewAnswerPairRows db2.interview_answers s q).length =
        (interviewAnswerPairRows db.interview_answers s q).length)) := by
  constructor
  · intro db refGen ssid stid qid txt ss session ex resp db2
    intro hss hsess hty hex h
    rw [submit_answer.eq_def] at h
    split at h
    · cases h
    rw [hex] at h
    simp only [List.head?] at h
    split at h
    · cases h
    case _ ss2 hss2 =>
    rw [wrap500_ok_iff, hss] at hss2
    injection hss2 with hss2e
    subst hss2e
    split at h
    · cases h
    split at h
    · cases h
    case _ session2 hsess2 =>
    rw [wrap500_ok_iff, hsess] at hsess2
    injection hsess2 with hsess2e
    subst hsess2e
    split at h
    · exact absurd (by assumption) hty
    split at h
    · cases h
    case _ question2 hq2 =>
    simp only [upsertAnswer] at h
    injection h with h2
    injection h2 with hresp hdb2
    subst hresp
    subst hdb2
    refine ⟨rfl, by simp, ?_, ?_⟩
    · rw [answerPairRows]
      dsimp only [Option.getD]
      rw [filter_map_invariant
        (fun a : AnswerRow => if a.answer_id == ex.answer_id then
          { a with
            answer_text := txt
            ai_score := PyVal.none
            ai_feedback := PyVal.none } else a)
        (fun a => a.student_session_id == ssid && a.question_id == qid)
        db.answers
        (by intro a; by_cases haid : a.answer_id == ex.answer_id <;>
          simp [haid])]
      have hcongr : db.answers.filter
          (fun a => a.student_session_id == ssid && a.question_id == qid) =
          db.answers.filter (fun a => a.student_session_id == ssid &&
            some qid == some a.question_id) := by
        apply List.filter_congr
        intro a _
        have : ((some qid : Option ℕ) == some a.question_id) =
            (a.question_id == qid) := beq_nat_comm qid a.question_id
        rw [this]
      rw [hcongr, hex]
      simp
    · intro s q
      rw [answerPairRows, answerPairRows]
      dsimp only [Option.getD]
      rw [filter_map_invariant
        (fun a : AnswerRow => if a.answer_id == ex.answer_id then
          { a with
            answer_text := txt
            ai_score := PyVal.none
            ai_feedback := PyVal.none } else a)
        (fun a => a.student_session_id == s && a.question_id == q)
        db.answers
        (by intro a; by_cases haid : a.answer_id == ex.answer_id <;>
          simp [haid])]
      simp
  · intro db refGen ssid stid qiid txt ss session ex resp db2
    intro hss hsess hty hex h
    rw [submit_answer.eq_def] at h
    split at h
    · cases h
    rw [hex] at h
    simp only [List.head?] at h
    split at h
    · cases h
    case _ ss2 hss2 =>
    rw [wrap500_ok_iff, hss] at hss2
    injection hss2 with hss2e
    subst hss2e
    split at h
    · cases h
    split at h
    · cases h
    case _ session2 hsess2 =>
    rw [wrap500_ok_iff, hsess] at hsess2
    injection hsess2 with hsess2e
    subst hsess2e
    split at h
    case _ =>
      split at h
      · cases h
      case _ question2 hq2 =>
      simp only [upsertInterviewAnswer] at h
      injection h with h2
      injection h2 with hresp hdb2
      subst hresp
      subst hdb2
      refine ⟨rfl, by simp, ?_, ?_⟩
      · rw [interviewAnswerPairRows]
        dsimp only [Option.getD]
        rw [filter_map_invariant
          (fun a : InterviewAnswerRow => if a.answer_id == ex.answer_id then
            { a with
              answer_text := txt
              ai_score := PyVal.none
              ai_feedback := PyVal.none } else a)
          (fun a => a.student_session_id == ssid &&
            a.question_interview_id == qiid)
          db.interview_answers
          (by intro a; by_cases haid : a.answer_id == ex.answer_id <;>
            simp [haid])]
        have hcongr : db.interview_answers.filter
            (fun a => a.student_session_id == ssid &&
              a.question_interview_id == qiid) =
            db.interview_answers.filter
              (fun a => a.student_session_id == ssid &&
                some qiid == some a.question_interview_id) := by
          apply List.filter_congr
          intro a _
          have : ((some qiid : Option ℕ) == some a.question_interview_id) =
              (a.question_interview_id == qiid) :=
            beq_nat_comm qiid a.question_interview_id
          rw [this]
        rw [hcongr, hex]
        simp
      · intro s q
        rw [interviewAnswerPairRows, interviewAnswerPairRows]
        dsimp only [Option.getD]
        rw [filter_map_invariant
          (fun a : InterviewAnswerRow => if a.answer_id == ex.answer_id then
            { a with
              answer_text := txt
              ai_score := PyVal.none
              ai_feedback := PyVal.none } else a)
          (fun a => a.student_session_id == s &&
            a.question_interview_id == q)
          db.interview_answers
          (by intro a; by_cases haid : a.answer_id == ex.answer_id <;>
            simp [haid])]
        simp
    case _ hcond =>
      exact absurd hty (by simp [hcond])

/-- C4 witness: resubmitting concrete answers 200 (standard) and 201
(interview) keeps table sizes, the answer ids, and clears score/feedback. -/
theorem submit_answer_upsert_witness :
    ((200 : ℕ) = 200 ∧
     exDbC4std2.answers.length = exDbC4.answers.length ∧
     answerPairRows exDbC4std2.answers 100 7 =
       [⟨200, 100, 7, "new text", PyVal.none, PyVal.none⟩] ∧
     (∀ s q, (answerPairRows exDbC4std2.answers s q).length =
       (answerPairRows exDbC4.answers s q).length)) ∧
    ((201 : ℕ) = 201 ∧
     exDbC4int2.interview_answers.length =
       exDbC4.interview_answers.length ∧
     interviewAnswerPairRows exDbC4int2.interview_answers 101 9 =
       [⟨201, 101, 9, "new text", PyVal.none, PyVal.none⟩] ∧
     (∀ s q, (interviewAnswerPairRows exDbC4int2.interview_answers s q).length
       = (interviewAnswerPairRows exDbC4.interview_answers s q).length)) :=
  ⟨submit_answer_upsert.1 exDbC4 (Except.error "gen down") 100 5 7 "new text"
      ⟨100, 1, 5, Option.none, Option.none, 0⟩
      ⟨1, "PRACTICE", "created", Option.none, Option.none, some "Algo",
        Option.none, Option.none, "S1"⟩
      ⟨200, 100, 7, "old", PyVal.num 5, PyVal.str "fb"⟩
      ⟨200, false, 1, 1⟩ exDbC4std2
      (by rfl) (by rfl) (by decide) (by rfl) (by rfl),
   submit_answer_upsert.2 exDbC4 (Except.error "gen down") 101 5 9 "new text"
      ⟨101, 2, 5, Option.none, Option.none, 0⟩
      ⟨2, "INTERVIEW", "created", Option.none, Option.none, some "Dev",
        Option.none, Option.none, "S2"⟩
      ⟨201, 101, 9, "old", PyVal.num 5, PyVal.str "fb"⟩
      ⟨201, false, 1, 1⟩ exDbC4int2
      (by rfl) (by rfl) (by decide) (by rfl) (by rfl)⟩

/-- C6 (amended): an accepted `submitAnswer` stores the submitted text
exactly as received — no truncation of any kind is applied before storage;
the stored row (in the standard or the interview table, per session type)
carries the full submitted text. -/
theorem submit_answer_stores_full_text
    (db : DB) (refGen : Except String (List (ℕ × String)))
    (ssid stid : ℕ) (qid qiid : Option ℕ) (ans : Option String)
    (resp : SubmitResp) (db2 : DB)
    (h : submit_answer db refGen ssid stid qid qiid ans =
      Except.ok (resp, db2)) :
    (∃ row ∈ db2.answers, row.answer_id = resp.answer_id ∧
      row.answer_text = ans.getD "") ∨
    (∃ row ∈ db2.interview_answers, row.answer_id = resp.answer_id ∧
      row.answer_text = ans.getD "") := by
  rw [submit_answer.eq_def] at h
  split at h
  · cases h
  split at h
  · cases h
  split at h
  · cases h
  split at h
  · cases h
  split at h
  · -- interview branch
    split at h
    · cases h
    rcases hhead : (db.interview_answers.filter
        (fun a => a.student_session_id == ssid &&
          qiid == some a.question_interview_id)).head? with _ | ex
    · rw [hhead] at h
      simp only [upsertInterviewAnswer] at h
      injection h with h2
      injection h2 with hresp hdb2
      subst hresp
      subst hdb2
      refine Or.inr ⟨⟨db.next_id, ssid, qiid.getD 0, ans.getD "",
        PyVal.none, PyVal.none⟩, ?_, rfl, rfl⟩
      simp
    · rw [hhead] at h
      simp only [upsertInterviewAnswer] at h
      injection h with h2
      injection h2 with hresp hdb2
      subst hresp
      subst hdb2
      have hexmem : ex ∈ db.interview_answers :=
        List.mem_filter.mp (head?_mem_of hhead) |>.1
      refine Or.inr ⟨{ ex with
          answer_text := ans.getD ""
          ai_score := PyVal.none
          ai_feedback := PyVal.none }, ?_, rfl, rfl⟩
      have := List.mem_map_of_mem
        (fun a : InterviewAnswerRow =>
          if a.answer_id == ex.answer_id then
            { a with
              answer_text := ans.getD ""
              ai_score := PyVal.none
              ai_feedback := PyVal.none }
          else a) hexmem
      simpa using this
  · -- standard branch
    split at h
    · cases h
    rcases hhead : (db.answers.filter
        (fun a => a.student_session_id == ssid &&
          qid == some a.question_id)).head? with _ | ex
    · rw [hhead] at h
      simp only [upsertAnswer] at h
      injection h with h2
      injection h2 with hresp hdb2
      subst hresp
      subst hdb2
      refine Or.inl ⟨⟨db.next_id, ssid, qid.getD 0, ans.getD "",
        PyVal.none, PyVal.none⟩, ?_, rfl, rfl⟩
      simp
    · rw [hhead] at h
      simp only [upsertAnswer] at h
      injection h with h2
      injection h2 with hresp hdb2
      subst hresp
      subst hdb2
      have hexmem : ex ∈ db.answers :=
        List.mem_filter.mp (head?_mem_of hhead) |>.1
      refine Or.inl ⟨{ ex with
          answer_text := ans.getD ""
          ai_score := PyVal.none
          ai_feedback := PyVal.none }, ?_, rfl, rfl⟩
      have := List.mem_map_of_mem
        (fun a : AnswerRow =>
          if a.answer_id == ex.answer_id then
            { a with
              answer_text := ans.getD ""
              ai_score := PyVal.none
              ai_feedback := PyVal.none }
          else a) hexmem
      simpa using this

/-- C6 witness: submitting the 16001-character text stores it unchanged. -/
theorem submit_answer_stores_full_text_witness :
    (∃ row ∈ ({ exDbC4 with
        answers := [⟨200, 100, 7, c6LongText, PyVal.none, PyVal.none⟩]
        } : DB).answers,
      row.answer_id = (200 : ℕ) ∧ row.answer_text = c6LongText) ∨
    (∃ row ∈ ({ exDbC4 with
        answers := [⟨200, 100, 7, c6LongText, PyVal.none, PyVal.none⟩]
        } : DB).interview_answers,
      row.answer_id = (200 : ℕ) ∧ row.answer_text = c6LongText) :=
  submit_answer_stores_full_text exDbC4 (Except.error "gen down") 100 5
    (some 7) Option.none (some c6LongText) ⟨200, false, 1, 1⟩
    { exDbC4 with
      answers := [⟨200, 100, 7, c6LongText, PyVal.none, PyVal.none⟩] }
    (by rfl)

/-- C6 counterexample: the claim says stored text is capped at 16000
characters; submitting a 16001-character answer stores all 16001 characters
— no truncation happens anywhere in `submit_answer`. -/
theorem submit_answer_no_truncation_counterexample :
    submit_answer exDbC4 (Except.error "gen down") 100 5 (some 7)
      Option.none (some c6LongText) =
      Except.ok (⟨200, false, 1, 1⟩,
        { exDbC4 with
          answers := [⟨200, 100, 7, c6LongText, PyVal.none, PyVal.none⟩] }) ∧
    c6LongText.length = 16001 ∧ ¬ (c6LongText.length ≤ 16000) := by
  have hlen : c6LongText.length = 16001 := by
    show (List.replicate 16001 'a').length = 16001
    rw [List.length_replicate]
  refine ⟨rfl, hlen, by rw [hlen]; omega⟩

/-- Helper: filtering with a conjunction is empty when filtering with the
first conjunct is. -/
theorem filter_and_nil {α : Type} (p q : α → Bool) (l : List α)
    (h : l.filter p = []) : l.filter (fun a => p a && q a) = [] := by
  induction l with
  | nil => rfl
  | cons a t ih =>
    by_cases hp : p a
    · rw [List.filter_cons_of_pos hp] at h; cases h
    · rw [List.filter_cons_of_neg hp] at h
      rw [List.filter_cons_of_neg (by simp [hp])]
      exact ih h

/-- C8: for an INTERVIEW session with no existing interview questions, a
missing `cv_url` makes `start` fail 400 "Interview CV is missing" before the
generator is consulted (the oracle is arbitrary); an interview generation
failure is a fatal 500; for a PRACTICE session with no questions, a
generation failure is swallowed and `start` fails only with the 400
"no questions" error. -/
theorem start_session_generation_gating :
    (∀ (db : DB) (oc : StartOracle) (ssid stid : ℕ)
        (ss : StudentSessionRow) (session : SessionRow)
        (config : InterviewConfigRow),
      single? (db.student_sessions.filter
        (fun r => r.student_session_id == ssid)) = Except.ok ss →
      (ss.student_id == stid) = true →
      single? (db.sessions.filter
        (fun s => s.session_id == ss.session_id)) = Except.ok session →
      session.session_type = "INTERVIEW" →
      (session.status == "created" || session.status == "ready") = true →
      db.interview_questions.filter
        (fun q => q.session_id == session.session_id) = [] →
      single? (db.interview_configs.filter
        (fun c => c.session_id == session.session_id)) = Except.ok config →
      strOptTruthy config.cv_url = false →
      start_session db oc ssid stid =
        Except.error ⟨400, "Interview CV is missing"⟩) ∧
    (∀ (db : DB) (oc : StartOracle) (ssid stid : ℕ)
        (ss : StudentSessionRow) (session : SessionRow)
        (config : InterviewConfigRow) (msg : String),
      single? (db.student_sessions.filter
        (fun r => r.student_session_id == ssid)) = Except.ok ss →
      (ss.student_id == stid) = true →
      single? (db.sessions.filter
        (fun s => s.session_id == ss.session_id)) = Except.ok session →
      session.session_type = "INTERVIEW" →
      (session.status == "created" || session.status == "ready") = true →
      db.interview_questions.filter
        (fun q => q.session_id == session.session_id) = [] →
      single? (db.interview_configs.filter
        (fun c => c.session_id == session.session_id)) = Except.ok config →
      strOptTruthy config.cv_url = true →
      oc.genInterview = Except.error msg →
      start_session db oc ssid stid = Except.error
        ⟨500, "Failed to generate interview questions: " ++ msg⟩) ∧
    (∀ (db : DB) (oc : StartOracle) (ssid stid : ℕ)
        (ss : StudentSessionRow) (session : SessionRow) (msg : String),
      single? (db.student_sessions.filter
        (fun r => r.student_session_id == ssid)) = Except.ok ss →
      (ss.student_id == stid) = true →
      single? (db.sessions.filter
        (fun s => s.session_id == ss.session_id)) = Except.ok session →
      session.session_type = "PRACTICE" →
      (session.status == "created" || session.status == "ready") = true →
      db.questions.filter
        (fun q => q.session_id == session.session_id) = [] →
      oc.genPractice = Except.error msg →
      start_session db oc ssid stid = Except.error
        ⟨400, "No questions available for this session"⟩) := by
  refine ⟨?_, ?_, ?_⟩
  · intro db oc ssid stid ss session config
    intro hss howner hsess hty hstatus hnoq hconfig hcv
    rw [start_session.eq_def, hss]
    simp only [wrap500]
    rw [if_neg (by simp [howner]), hsess]
    simp only [wrap500]
    rw [hty]
    rw [if_neg (by simp), if_neg (by simp [hstatus])]
    rw [startGenerate.eq_def, hty]
    rw [if_neg (by simp), if_pos (by simp)]
    rw [if_pos (by rw [hnoq]; rfl)]
    rw [hconfig]
    simp only []
    rw [if_pos (by simp [hcv])]
  · intro db oc ssid stid ss session config msg
    intro hss howner hsess hty hstatus hnoq hconfig hcv hgen
    rw [start_session.eq_def, hss]
    simp only [wrap500]
    rw [if_neg (by simp [howner]), hsess]
    simp only [wrap500]
    rw [hty]
    rw [if_neg (by simp), if_neg (by simp [hstatus])]
    rw [startGenerate.eq_def, hty]
    rw [if_neg (by simp), if_pos (by simp)]
    rw [if_pos (by rw [hnoq]; rfl)]
    rw [hconfig]
    simp only []
    rw [if_neg (by simp [hcv])]
    rw [hgen]
  · intro db oc ssid stid ss session msg
    intro hss howner hsess hty hstatus hnoq hgen
    rw [start_session.eq_def, hss]
    simp only [wrap500]
    rw [if_neg (by simp [howner]), hsess]
    simp only [wrap500]
    rw [hty]
    rw [if_neg (by simp), if_neg (by simp [hstatus])]
    rw [startGenerate.eq_def, hty]
    rw [if_pos (by simp)]
    rw [if_pos (by rw [hnoq]; rfl)]
    rw [hgen]
    simp only []
    have h0 := filter_and_nil
      (fun q : QuestionRow => q.session_id == session.session_id)
      (fun q : QuestionRow => q.status == "approved" ||
        q.status == "answers_approved") db.questions hnoq
    simp [h0]

/-- C8 witness: concrete stores exercising the three gating behaviours —
missing CV is a 400 even with a generator that would succeed, interview
generation failure is a 500, and PRACTICE generation failure ends as the 400
no-questions error. -/
theorem start_session_generation_gating_witness :
    start_session exDbC8a exOracleOk 110 5 =
      Except.error ⟨400, "Interview CV is missing"⟩ ∧
    start_session exDbC8b exOracleFail 110 5 = Except.error
      ⟨500, "Failed to generate interview questions: LLM down"⟩ ∧
    start_session exDbC8c exOracleFail 120 5 = Except.error
      ⟨400, "No questions available for this session"⟩ :=
  ⟨start_session_generation_gating.1 exDbC8a exOracleOk 110 5
      ⟨110, 3, 5, Option.none, Option.none, 0⟩
      ⟨3, "INTERVIEW", "created", Option.none, Option.none, some "Dev",
        Option.none, Option.none, "S3"⟩
      ⟨3, Option.none, Option.none, some "Dev", some 5, some 30⟩
      (by rfl) (by rfl) (by rfl) (by rfl) (by rfl) (by rfl) (by rfl)
      (by rfl),
   start_session_generation_gating.2.1 exDbC8b exOracleFail 110 5
      ⟨110, 3, 5, Option.none, Option.none, 0⟩
      ⟨3, "INTERVIEW", "created", Option.none, Option.none, some "Dev",
        Option.none, Option.none, "S3"⟩
      ⟨3, some "http://cv.pdf", Option.none, some "Dev", some 5, some 30⟩
      "LLM down"
      (by rfl) (by rfl) (by rfl) (by rfl) (by rfl) (by rfl) (by rfl)
      (by rfl) (by rfl),
   start_session_generation_gating.2.2 exDbC8c exOracleFail 120 5
      ⟨120, 1, 5, Option.none, Option.none, 0⟩ exPracticeSession "LLM down"
      (by rfl) (by rfl) (by rfl) (by rfl) (by rfl) (by rfl) (by rfl)⟩

/-- C10: for a non-interview session, `submitAnswer` counts
`total_questions` (and hence `next_question_available`) over questions with
status exactly `approved`, whereas `start` counts both `approved` and
`answers_approved`; consequently, on a concrete session holding an
unanswered `answers_approved` question, `submitAnswer` reports
`next_question_available = false` while `getNextQuestion` still returns a
question. -/
theorem submit_counts_only_approved :
    (∀ (db : DB) (refGen : Except String (List (ℕ × String)))
        (ssid stid : ℕ) (qid : Option ℕ) (qiid : Option ℕ)
        (ans : Option String) (session : SessionRow)
        (ss : StudentSessionRow) (question : QuestionRow)
        (resp : SubmitResp) (db2 : DB),
      single? (db.student_sessions.filter
        (fun r => r.student_session_id == ssid)) = Except.ok ss →
      single? (db.sessions.filter
        (fun s => s.session_id == ss.session_id)) = Except.ok session →
      ¬ ((session.session_type == "INTERVIEW") = true) →
      single? (db.questions.filter
        (fun q => qid == some q.question_id)) = Except.ok question →
      submit_answer db refGen ssid stid qid qiid ans =
        Except.ok (resp, db2) →
      resp.total_questions = (db2.questions.filter
        (fun q => q.session_id == question.session_id &&
          q.status == "approved")).length ∧
      resp.next_question_available =
        decide (resp.answered_count < resp.total_questions)) ∧
    (∀ (db : DB) (oc : StartOracle) (ssid stid : ℕ)
        (ss : StudentSessionRow) (session : SessionRow)
        (resp : StartResp) (db2 : DB),
      single? (db.student_sessions.filter
        (fun r => r.student_session_id == ssid)) = Except.ok ss →
      single? (db.sessions.filter
        (fun s => s.session_id == ss.session_id)) = Except.ok session →
      ¬ ((session.session_type == "INTERVIEW") = true) →
      start_session db oc ssid stid = Except.ok (resp, db2) →
      resp.total_questions = (db2.questions.filter
        (fun q => q.session_id == session.session_id &&
          (q.status == "approved" ||
            q.status == "answers_approved"))).length) ∧
    (submit_answer exDbC5 (Except.error "gen down") 100 5 (some 7)
        Option.none (some "new") =
      Except.ok (⟨200, false, 1, 1⟩, exDbC10) ∧
     get_next_question exDbC10 100 5 = Except.ok (NextQResp.question
       ⟨8, "Q8", 2, 2, "APPLY", Option.none, Option.none⟩)) := by
  refine ⟨?_, ?_, by exact ⟨rfl, rfl⟩⟩
  · intro db refGen ssid stid qid qiid ans session ss question resp db2
    intro hss hsess hty hq h
    rw [submit_answer.eq_def] at h
    split at h
    · cases h
    split at h
    · cases h
    case _ ss2 hss2 =>
    rw [wrap500_ok_iff, hss] at hss2
    injection hss2 with hss2e
    subst hss2e
    split at h
    · cases h
    split at h
    · cases h
    case _ session2 hsess2 =>
    rw [wrap500_ok_iff, hsess] at hsess2
    injection hsess2 with hsess2e
    subst hsess2e
    split at h
    · exact absurd (by assumption) hty
    split at h
    · cases h
    case _ question2 hq2 =>
    rw [wrap500_ok_iff, hq] at hq2
    injection hq2 with hq2e
    subst hq2e
    rcases hhead : (db.answers.filter
        (fun a => a.student_session_id == ssid &&
          qid == some a.question_id)).head? with _ | ex
    · rw [hhead] at h
      simp only [upsertAnswer] at h
      injection h with h2
      injection h2 with hresp hdb2
      subst hresp
      subst hdb2
      exact ⟨rfl, rfl⟩
    · rw [hhead] at h
      simp only [upsertAnswer] at h
      injection h with h2
      injection h2 with hresp hdb2
      subst hresp
      subst hdb2
      exact ⟨rfl, rfl⟩
  · intro db oc ssid stid ss session resp db2
    intro hss hsess hty h
    rw [start_session.eq_def] at h
    rw [hss] at h
    simp only [wrap500] at h
    split at h
    · cases h
    rw [hsess] at h
    simp only [wrap500] at h
    split at h
    · cases h
    split at h
    · cases h
    split at h
    · cases h
    case _ db1 itl hgen =>
    split at h
    · cases h
    injection h with h2
    injection h2 with hresp hdb2
    subst hresp
    subst hdb2
    rfl

/-- C10 witness: on the concrete store, resubmitting question 7 yields
total 1 (approved only, so no next question), while `start` on the same
session counts 2 (both statuses). -/
theorem submit_counts_only_approved_witness :
    ((1 : ℕ) = (exDbC10.questions.filter
        (fun q => q.session_id == 1 && q.status == "approved")).length ∧
      (false = decide ((1 : ℕ) < 1))) ∧
    ((2 : ℕ) = (exDbC5.questions.filter
        (fun q => q.session_id == 1 && (q.status == "approved" ||
          q.status == "answers_approved"))).length) :=
  ⟨submit_counts_only_approved.1 exDbC5 (Except.error "gen down") 100 5
      (some 7) Option.none (some "new")
      ⟨1, "PRACTICE", "created", Option.none, Option.none, some "Algo",
        Option.none, Option.none, "S1"⟩
      ⟨100, 1, 5, Option.none, Option.none, 0⟩
      ⟨7, 1, "Q7", "", "APPLY", "approved", Option.none⟩
      ⟨200, false, 1, 1⟩ exDbC10
      (by rfl) (by rfl) (by decide) (by rfl) (by rfl),
   submit_counts_only_approved.2.1 exDbC5 exOracleFail 100 5
      ⟨100, 1, 5, Option.none, Option.none, 0⟩
      ⟨1, "PRACTICE", "created", Option.none, Option.none, some "Algo",
        Option.none, Option.none, "S1"⟩
      ⟨100, true, 2, Option.none⟩ exDbC5
      (by rfl) (by rfl) (by decide) (by rfl)⟩

/-- C7: with max_retries = 3 and initial delay q, `call_llm_json` retries on
any exception with exponential backoff: when the first two attempts raise
and the third returns a non-empty response that parses (after stripping the
fenced json wrapper inside `safe_parse_llm_output`), the call returns the
parsed third response having slept exactly q·2⁰ then q·2¹, whose total is
q + 2q; when all three attempts raise, the final attempt's exception
propagates unmodified with the same two sleeps. -/
theorem call_llm_json_retry_spec :
    (∀ (J : Type) (backend : ℕ → Except String String)
        (jsonLoads : String → Option J) (q : ℚ)
        (e0 e1 : String) (raw : String) (v : J),
      attemptLlm backend jsonLoads 0 = Except.error e0 →
      attemptLlm backend jsonLoads 1 = Except.error e1 →
      backend 2 = Except.ok raw →
      (pyStrip raw == "") = false →
      safe_parse_llm_output jsonLoads (pyStrip raw) = Except.ok v →
      call_llm_json backend jsonLoads 3 q =
        (Except.ok v, [q * 2 ^ 0, q * 2 ^ 1]) ∧
      q * 2 ^ 0 + q * 2 ^ 1 = q + 2 * q) ∧
    (∀ (J : Type) (backend : ℕ → Except String String)
        (jsonLoads : String → Option J) (q : ℚ) (e0 e1 e2 : String),
      attemptLlm backend jsonLoads 0 = Except.error e0 →
      attemptLlm backend jsonLoads 1 = Except.error e1 →
      attemptLlm backend jsonLoads 2 = Except.error e2 →
      call_llm_json backend jsonLoads 3 q =
        (Except.error e2, [q * 2 ^ 0, q * 2 ^ 1])) := by
  constructor
  · intro J backend jsonLoads q e0 e1 raw v h0 h1 h2 hempty hparse
    have a2 : attemptLlm backend jsonLoads 2 = Except.ok v := by
      rw [attemptLlm, h2]
      simp only []
      rw [if_neg (by simp [hempty])]
      exact hparse
    have g1 : call_llm_json_go backend jsonLoads q 1 2 =
        (Except.ok v, []) := by
      rw [call_llm_json_go, a2]
    have g2 : call_llm_json_go backend jsonLoads q 2 1 =
        (Except.ok v, [q * 2 ^ 1]) := by
      rw [call_llm_json_go, h1]
      simp [g1]
    refine ⟨?_, by ring⟩
    rw [call_llm_json, call_llm_json_go, h0]
    simp [g2]
  · intro J backend jsonLoads q e0 e1 e2 h0 h1 h2
    have g1 : call_llm_json_go backend jsonLoads q 1 2 =
        (Except.error e2, []) := by
      rw [call_llm_json_go, h2]
      simp
    have g2 : call_llm_json_go backend jsonLoads q 2 1 =
        (Except.error e2, [q * 2 ^ 1]) := by
      rw [call_llm_json_go, h1]
      simp [g1]
    rw [call_llm_json, call_llm_json_go, h0]
    simp [g2]

/-- C7 witness: the concrete backend failing twice then returning a fenced
JSON array yields the parsed value 42 with sleeps 1 and 2 (total 3); the
always-failing backend propagates the third exception. -/
theorem call_llm_json_retry_spec_witness :
    (call_llm_json exBackend exJsonLoads 3 1 =
      (Except.ok 42, [1 * 2 ^ 0, 1 * 2 ^ 1]) ∧
     (1 : ℚ) * 2 ^ 0 + 1 * 2 ^ 1 = 1 + 2 * 1) ∧
    call_llm_json exBackendFail exJsonLoads 3 1 =
      (Except.error "boom2", [1 * 2 ^ 0, 1 * 2 ^ 1]) :=
  ⟨call_llm_json_retry_spec.1 ℕ exBackend exJsonLoads 1 "boom0" "boom1"
      "```json\n[1, 2]\n```" 42 (by rfl) (by rfl) (by rfl) (by rfl) (by rfl),
   call_llm_json_retry_spec.2 ℕ exBackendFail exJsonLoads 1
      "boom0" "boom1" "boom2" (by rfl) (by rfl) (by rfl)⟩

/-- Helper: membership in a dict after assignment: the key is the assigned
one or was already present. -/
theorem assocSetNat_mem {l : List (ℕ × String)} {k : ℕ} {v : String}
    {p : ℕ × String} (h : p ∈ assocSetNat l k v) :
    p.1 = k ∨ ∃ p2 ∈ l, p2.1 = p.1 := by
  rw [assocSetNat] at h
  by_cases hany : l.any (fun p => p.1 == k)
  · rw [if_pos hany] at h
    obtain ⟨orig, horig, heq⟩ := List.mem_map.mp h
    by_cases hk : orig.1 == k
    · rw [if_pos hk] at heq
      subst heq
      exact Or.inl (by simpa using hk)
    · rw [if_neg hk] at heq
      subst heq
      exact Or.inr ⟨orig, horig, rfl⟩
  · rw [if_neg hany] at h
    rcases List.mem_append.mp h with hl | hr
    · exact Or.inr ⟨p, hl, rfl⟩
    · simp only [List.mem_singleton] at hr
      subst hr
      exact Or.inl rfl

/-- Helper: every entry of the mapping loop's result comes from the
accumulator or from an item mapped through its effective index (its
`question_index`, defaulting to its enumeration position). -/
theorem buildAnswerMapAux_provenance {Q : Type} (idOf : Q → ℕ)
    (qs : List Q) (items : List RefAnswerItem) :
    ∀ (i : ℕ) (acc : List (ℕ × String)) (k : ℕ) (v : String),
      (k, v) ∈ buildAnswerMapAux idOf qs i items acc →
      (∃ p ∈ acc, p.1 = k) ∨
      ∃ idx, ∃ item, (idx, item) ∈ items.enumFrom i ∧
        ∃ h : item.question_index.getD idx < qs.length,
          idOf (qs.get ⟨item.question_index.getD idx, h⟩) = k := by
  induction items with
  | nil =>
    intro i acc k v h
    exact Or.inl ⟨(k, v), h, rfl⟩
  | cons item rest ih =>
    intro i acc k v h
    rw [buildAnswerMapAux] at h
    rcases ih (i + 1) _ k v h with hacc | ⟨idx, item2, hmem, hlt, hid⟩
    · obtain ⟨p, hp, hpk⟩ := hacc
      by_cases hin : item.question_index.getD i < qs.length
      · simp only [dif_pos hin] at hp
        rcases assocSetNat_mem hp with hkey | ⟨p2, hp2, hpk2⟩
        · refine Or.inr ⟨i, item, ?_, hin, ?_⟩
          · simp [List.enumFrom]
          · exact hkey.symm.trans hpk
        · exact Or.inl ⟨p2, hp2, by rw [hpk2, hpk]⟩
      · simp only [dif_neg hin] at hp
        exact Or.inl ⟨p, hp, hpk⟩
    · refine Or.inr ⟨idx, item2, ?_, hlt, hid⟩
      simp only [List.enumFrom]
      exact List.mem_cons_of_mem _ hmem

/-- Helper: when every item's effective index is out of range, the loop
leaves the accumulator untouched. -/
theorem buildAnswerMapAux_all_skipped {Q : Type} (idOf : Q → ℕ)
    (qs : List Q) (items : List RefAnswerItem) :
    ∀ (i : ℕ) (acc : List (ℕ × String)),
      (∀ idx item, (idx, item) ∈ items.enumFrom i →
        ¬ (item.question_index.getD idx < qs.length)) →
      buildAnswerMapAux idOf qs i items acc = acc := by
  induction items with
  | nil => intro i acc _; rfl
  | cons item rest ih =>
    intro i acc hall
    rw [buildAnswerMapAux]
    have h0 := hall i item (by simp [List.enumFrom])
    simp only [dif_neg h0]
    refine ih (i + 1) acc ?_
    intro idx it hmem
    have hmem2 : (idx, it) ∈ (i, item) :: List.enumFrom (i + 1) rest :=
      List.mem_cons_of_mem _ hmem
    exact hall idx it (by simpa [List.enumFrom] using hmem2)

/-- C9 (amended): response items are mapped back to question identities by
their `question_index` when present — an explicit in-range index `qi` maps
to `questions[qi]` regardless of the item's array position — while an item
MISSING `question_index` falls back to its array position (it is not
skipped); an item whose effective index is out of range (≥ the number of
fetched questions) is skipped rather than crashing; and only items so
mapped appear in the returned map.  This covers both
`generate_reference_answers_for_questions` and
`generate_reference_answers_for_interview`, which share this loop. -/
theorem reference_answer_mapping_amended :
    (∀ (Q : Type) (idOf : Q → ℕ) (qs : List Q)
        (items : List RefAnswerItem) (k : ℕ) (v : String),
      (k, v) ∈ buildAnswerMap idOf qs items →
      ∃ idx, ∃ item, (idx, item) ∈ items.enum ∧
        ∃ h : item.question_index.getD idx < qs.length,
          idOf (qs.get ⟨item.question_index.getD idx, h⟩) = k) ∧
    (∀ (Q : Type) (idOf : Q → ℕ) (qs : List Q)
        (items : List RefAnswerItem),
      (∀ idx item, (idx, item) ∈ items.enum →
        ¬ (item.question_index.getD idx < qs.length)) →
      buildAnswerMap idOf qs items = []) ∧
    (∀ (Q : Type) (idOf : Q → ℕ) (qs : List Q) (qi : ℕ) (ref : String),
      ∀ h : qi < qs.length,
      buildAnswerMap idOf qs [⟨some qi, some ref⟩] =
        [(idOf (qs.get ⟨qi, h⟩), ref)]) ∧
    (∀ (Q : Type) (idOf : Q → ℕ) (qs : List Q) (ref : String),
      ∀ h : 0 < qs.length,
      buildAnswerMap idOf qs [⟨Option.none, some ref⟩] =
        [(idOf (qs.get ⟨0, h⟩), ref)]) ∧
    (∀ (Q : Type) (idOf : Q → ℕ) (qs : List Q) (qi : ℕ) (ref : String),
      qs.length ≤ qi →
      buildAnswerMap idOf qs [⟨some qi, some ref⟩] = []) := by
  refine ⟨?_, ?_, ?_, ?_, ?_⟩
  · intro Q idOf qs items k v h
    rcases buildAnswerMapAux_provenance idOf qs items 0 [] k v h with
      ⟨p, hp, _⟩ | ⟨idx, item, hmem, hlt, hid⟩
    · cases hp
    · exact ⟨idx, item, hmem, hlt, hid⟩
  · intro Q idOf qs items hall
    exact buildAnswerMapAux_all_skipped idOf qs items 0 [] hall
  · intro Q idOf qs qi ref h
    rw [buildAnswerMap, buildAnswerMapAux]
    simp only [Option.getD, dif_pos h]
    rw [buildAnswerMapAux]
    simp [assocSetNat]
  · intro Q idOf qs ref h
    rw [buildAnswerMap, buildAnswerMapAux]
    simp only [Option.getD, dif_pos h]
    rw [buildAnswerMapAux]
    simp [assocSetNat]
  · intro Q idOf qs qi ref h
    rw [buildAnswerMap, buildAnswerMapAux]
    simp only [Option.getD, dif_neg (Nat.not_lt.mpr h)]
    rw [buildAnswerMapAux]

/-- C9 witness: on one fetched question with id 7, an explicit index 0 maps
to id 7; a missing index also maps (by position); index 1 is skipped. -/
theorem reference_answer_mapping_amended_witness :
    buildAnswerMap (fun q : QuestionRow => q.question_id)
      [⟨7, 1, "Q7", "", "APPLY", "approved", Option.none⟩]
      [⟨some 0, some "A"⟩] = [(7, "A")] ∧
    buildAnswerMap (fun q : QuestionRow => q.question_id)
      [⟨7, 1, "Q7", "", "APPLY", "approved", Option.none⟩]
      [⟨Option.none, some "A"⟩] = [(7, "A")] ∧
    buildAnswerMap (fun q : QuestionRow => q.question_id)
      [⟨7, 1, "Q7", "", "APPLY", "approved", Option.none⟩]
      [⟨some 1, some "A"⟩] = [] :=
  ⟨reference_answer_mapping_amended.2.2.1 QuestionRow
      (fun q => q.question_id)
      [⟨7, 1, "Q7", "", "APPLY", "approved", Option.none⟩] 0 "A"
      (by decide),
   reference_answer_mapping_amended.2.2.2.1 QuestionRow
      (fun q => q.question_id)
      [⟨7, 1, "Q7", "", "APPLY", "approved", Option.none⟩] "A"
      (by decide),
   reference_answer_mapping_amended.2.2.2.2 QuestionRow
      (fun q => q.question_id)
      [⟨7, 1, "Q7", "", "APPLY", "approved", Option.none⟩] 1 "A"
      (by decide)⟩

/-- C9 counterexample: the claim says an item with a MISSING
`question_index` is skipped; in the code it defaults to the item's array
position — on one question (id 7) and one index-less response item the code
maps id 7 to the answer, whereas the claim's mapping is empty. -/
theorem reference_answer_mapping_counterexample :
    generate_reference_answers_map
      [⟨7, 1, "Q7", "", "APPLY", "approved", Option.none⟩]
      [⟨Option.none, some "A"⟩] = [(7, "A")] ∧
    generate_reference_answers_interview_map
      [⟨9, 2, "IQ9", "", "BEHAVIORAL", "tech", "p", "Dev", 0, "approved",
        Option.none, Option.none⟩]
      [⟨Option.none, some "A"⟩] = [(9, "A")] ∧
    claimAnswerMap (fun q : QuestionRow => q.question_id)
      [⟨7, 1, "Q7", "", "APPLY", "approved", Option.none⟩]
      [⟨Option.none, some "A"⟩] = [] ∧
    ([((7 : ℕ), "A")] : List (ℕ × String)) ≠ [] :=
  ⟨rfl, rfl, rfl, by decide⟩

/-- Helper: the standard `end` tail cannot succeed when the final
persistence attempt fails. -/
theorem endStdFinish_no_ok (db : DB) (oc : EndOracle) (ssid : ℕ)
    (qs1 dbq : List QuestionRow) (locals : List LocalAnswerState)
    (dba : List AnswerRow) (m : String)
    (hm : oc.persistFinal = Except.error m) :
    ∀ (r : EndResp) (db2 : DB),
      ¬ (endStdFinish db oc ssid qs1 dbq locals dba =
        Except.ok (r, db2)) := by
  intro r db2 h
  rw [endStdFinish] at h
  split at h
  · cases h
  split at h
  · cases h
  case _ u hu =>
  rw [hm] at hu
  cases hu

/-- Helper: the interview `end` tail cannot succeed when the final
persistence attempt fails. -/
theorem endIntFinish_no_ok (db : DB) (oc : EndOracle) (ssid : ℕ)
    (qs1 dbq : List InterviewQuestionRow)
    (locals : List LocalAnswerState) (dba : List InterviewAnswerRow)
    (m : String) (hm : oc.persistFinal = Except.error m) :
    ∀ (r : EndResp) (db2 : DB),
      ¬ (endIntFinish db oc ssid qs1 dbq locals dba =
        Except.ok (r, db2)) := by
  intro r db2 h
  rw [endIntFinish] at h
  split at h
  · cases h
  split at h
  · cases h
  case _ u hu =>
  rw [hm] at hu
  cases hu

/-- Helper: the standard evaluation pass cannot succeed when the final
persistence attempt fails. -/
theorem end_std_eval_no_ok (db : DB) (oc : EndOracle) (ssid : ℕ)
    (session : SessionRow) (m : String)
    (hm : oc.persistFinal = Except.error m) :
    ∀ (r : EndResp) (db2 : DB),
      ¬ (end_std_eval db oc ssid session = Except.ok (r, db2)) := by
  intro r db2 h
  rw [end_std_eval] at h
  exact endStdFinish_no_ok _ _ _ _ _ _ _ m hm r db2 h

/-- Helper: the interview evaluation pass cannot succeed when the final
persistence attempt fails. -/
theorem end_int_eval_no_ok (db : DB) (oc : EndOracle) (ssid : ℕ)
    (session : SessionRow) (m : String)
    (hm : oc.persistFinal = Except.error m) :
    ∀ (r : EndResp) (db2 : DB),
      ¬ (end_int_eval db oc ssid session = Except.ok (r, db2)) := by
  intro r db2 h
  rw [end_int_eval] at h
  exact endIntFinish_no_ok _ _ _ _ _ _ _ m hm r db2 h

/-- C1 (amended): `end` is NOT failure-proof.  It makes one final
persistence attempt with the full payload — there are no degrading-payload
retries and no success-with-warning fallback: whenever that persistence
attempt fails, the call returns an error (the catch-all 500), never a
success, for every store and caller; and on the concrete scored session the
very same call succeeds once persistence succeeds. -/
theorem end_session_persist_failure_errors :
    (∀ (db : DB) (oc : EndOracle) (ssid stid : ℕ) (m : String),
      oc.persistFinal = Except.error m →
      ∀ (r : EndResp) (db2 : DB),
        ¬ (end_session db oc ssid stid = Except.ok (r, db2))) ∧
    exceptIsOk (end_session exDbC1 (exEndOracle (Except.ok ())) 100 5) =
      true := by
  constructor
  · intro db oc ssid stid m hm r db2 h
    rw [end_session.eq_def] at h
    split at h
    · cases h
    split at h
    · cases h
    split at h
    · cases h
    split at h
    · -- interview branch
      rw [end_int] at h
      split at h
      · cases h
      split at h
      · -- evaluation required
        split at h
        · cases h
        split at h
        · cases h
        exact end_int_eval_no_ok _ _ _ _ m hm r db2 h
      · exact endIntFinish_no_ok _ _ _ _ _ _ _ m hm r db2 h
    · -- standard branch
      rw [end_std] at h
      split at h
      · cases h
      split at h
      · exact end_std_eval_no_ok _ _ _ _ m hm r db2 h
      · exact endStdFinish_no_ok _ _ _ _ _ _ _ m hm r db2 h
  · rfl

/-- C1 witness: on the concrete store the persistence failure yields no
success result. -/
theorem end_session_persist_failure_errors_witness :
    ∀ (r : EndResp) (db2 : DB),
      ¬ (end_session exDbC1
        (exEndOracle (Except.error "connection reset")) 100 5 =
        Except.ok (r, db2)) :=
  end_session_persist_failure_errors.1 exDbC1
    (exEndOracle (Except.error "connection reset")) 100 5
    "connection reset" (by rfl)

/-- C1 counterexample: the claim says an `end` call on an owned student
session with at least one answer never fails outright (degrading retries, or
a 200 with a warning field).  On the concrete store satisfying all the
claim's preconditions, a single storage failure at the final update makes
the handler return a 500 error — there is no retry and no warning-carrying
success. -/
theorem end_session_never_fails_counterexample :
    single? (exDbC1.student_sessions.filter
      (fun r => r.student_session_id == 100)) =
      Except.ok ⟨100, 1, 5, Option.none, Option.none, 0⟩ ∧
    (⟨100, 1, 5, Option.none, Option.none, 0⟩ :
      StudentSessionRow).student_id = 5 ∧
    exDbC1.answers.filter (fun a => a.student_session_id == 100) ≠ [] ∧
    end_session exDbC1 (exEndOracle (Except.error "connection reset"))
      100 5 =
      Except.error ⟨500, "Failed to end session: connection reset"⟩ := by
  refine ⟨rfl, rfl, ?_, rfl⟩
  intro h
  cases h

/-- Helper: summing over a mapped list composes the functions. -/
theorem sumOpt_map {α β : Type} (f : β → Option ℚ) (g : α → β)
    (l : List α) : sumOpt f (l.map g) = sumOpt (fun x => f (g x)) l := by
  induction l with
  | nil => rfl
  | cons a t ih => simp only [List.map, sumOpt, ih]

/-- Helper: `sumOpt` respects pointwise-equal summands. -/
theorem sumOpt_congr {α : Type} {f g : α → Option ℚ} {l : List α}
    (h : ∀ x ∈ l, f x = g x) : sumOpt f l = sumOpt g l := by
  induction l with
  | nil => rfl
  | cons a t ih =>
    simp only [sumOpt]
    rw [h a (List.mem_cons_self _ _), ih (fun x hx =>
      h x (List.mem_cons_of_mem _ hx))]

/-- Helper: a successful sum means every summand succeeded. -/
theorem sumOpt_some_elem {α : Type} {f : α → Option ℚ} {l : List α}
    {s : ℚ} (h : sumOpt f l = some s) :
    ∀ x ∈ l, ∃ y, f x = some y := by
  induction l generalizing s with
  | nil => intro x hx; cases hx
  | cons a t ih =>
    intro x hx
    rw [sumOpt] at h
    rcases hfa : f a with _ | y
    · rw [hfa] at h; cases h
    · rcases hft : sumOpt f t with _ | s2
      · rw [hfa, hft] at h; cases h
      · rcases List.mem_cons.mp hx with hxa | hxt
        · subst hxa; exact ⟨y, hfa⟩
        · exact ih hft x hxt

/-- Helper: whenever `x or 0.0` sums successfully, the unified
`_overall_from_score` extraction agrees with it. -/
theorem scalar_extract_agree {v : PyVal} {s : ℚ}
    (h : scalar_or_zero v = some s) : _overall_from_score v = some s := by
  cases v with
  | none => rw [scalar_or_zero] at h; exact h
  | num q => rw [scalar_or_zero] at h; exact h
  | str t =>
    rw [scalar_or_zero] at h
    by_cases ht : t == ""
    · rw [if_pos ht] at h
      exact h
    · rw [if_neg ht] at h; cases h
  | list l =>
    rw [scalar_or_zero] at h
    by_cases hl : l.isEmpty
    · rw [if_pos hl] at h
      exact h
    · rw [if_neg hl] at h; cases h
  | dict l =>
    rw [scalar_or_zero] at h
    by_cases hl : l.isEmpty
    · rw [if_pos hl] at h
      have hnil : l = [] := by
        cases l with
        | nil => rfl
        | cons p t => cases hl
      subst hnil
      exact h
    · rw [if_neg hl] at h; cases h

/-- Helper: with pairwise-distinct local answer ids, the sequential
per-answer updates of `applyEvalWrites` act pointwise as `writeView`. -/
theorem applyEvalWrites_eq_map {R : Type} (idR : R → ℕ)
    (upd : R → LocalAnswerState → R)
    (hupd : ∀ r la, idR (upd r la) = idR r)
    (locals : List LocalAnswerState) :
    ∀ rows : List R,
      (locals.map (fun la => la.answer_id)).Nodup →
      applyEvalWrites idR upd rows locals =
        rows.map (writeView idR upd locals) := by
  induction locals with
  | nil =>
    intro rows _
    show rows = _
    rw [List.map_congr_left (fun a _ => ?_), List.map_id]
    show a = writeView idR upd [] a
    rfl
  | cons la rest ih =>
    intro rows hnd
    obtain ⟨hhead, htail⟩ := List.nodup_cons.mp hnd
    have hstep : applyEvalWrites idR upd rows (la :: rest) =
        applyEvalWrites idR upd
          (if la.wrote then
            rows.map (fun r => if idR r == la.answer_id then upd r la else r)
          else rows) rest := rfl
    rw [hstep, ih _ htail]
    by_cases hw : la.wrote
    · rw [if_pos hw, List.map_map]
      refine List.map_congr_left ?_
      intro r _
      by_cases hid : idR r == la.answer_id
      · have hid2 : idR r = la.answer_id := by simpa using hid
        show writeView idR upd rest (if idR r == la.answer_id then
          upd r la else r) = writeView idR upd (la :: rest) r
        rw [if_pos hid]
        rw [writeView, writeView]
        rw [List.find?_cons_of_pos _ (by simp [hw, hid])]
        have hnone : rest.find? (fun la2 => la2.wrote &&
            (idR (upd r la) == la2.answer_id)) = Option.none := by
          rw [List.find?_eq_none]
          intro la2 hla2
          have : la2.answer_id ≠ la.answer_id := by
            intro hcontra
            apply hhead
            have hm := List.mem_map_of_mem
              (fun la3 : LocalAnswerState => la3.answer_id) hla2
            simpa [hcontra] using hm
          have hne2 : ¬ (la.answer_id = la2.answer_id) :=
            fun hc => this hc.symm
          simp [hupd, hid2, hne2]
        rw [hnone]
      · show writeView idR upd rest (if idR r == la.answer_id then
          upd r la else r) = writeView idR upd (la :: rest) r
        rw [if_neg hid]
        rw [writeView, writeView]
        rw [List.find?_cons_of_neg _ (by simp [hid])]
    · rw [if_neg hw]
      refine List.map_congr_left ?_
      intro r _
      rw [writeView, writeView]
      rw [List.find?_cons_of_neg _ (by simp [hw])]

/-- Helper: locating the local derived from a given row among the mapped
locals, assuming pairwise-distinct row ids. -/
theorem find?_map_step {R : Type} (idR : R → ℕ)
    (step : R → LocalAnswerState)
    (hstep : ∀ x, (step x).answer_id = idR x) :
    ∀ (l : List R) (a : R), (l.map idR).Nodup → a ∈ l →
      (l.map step).find? (fun la => la.wrote && (idR a == la.answer_id)) =
        (if (step a).wrote then some (step a) else Option.none) := by
  intro l
  induction l with
  | nil => intro a _ ha; cases ha
  | cons b t ih =>
    intro a hnd ha
    obtain ⟨hhead, htail⟩ := List.nodup_cons.mp hnd
    rcases List.mem_cons.mp ha with hab | hat
    · subst hab
      by_cases hw : (step a).wrote
      · rw [if_pos hw]
        show List.find? _ (step a :: t.map step) = _
        rw [List.find?_cons_of_pos _ (by simp [hw, hstep])]
      · rw [if_neg hw]
        show List.find? _ (step a :: t.map step) = _
        rw [List.find?_cons_of_neg _ (by simp [hw])]
        rw [List.find?_eq_none]
        intro la hla
        obtain ⟨x, hx, hxe⟩ := List.mem_map.mp hla
        subst hxe
        have : idR x ≠ idR a := by
          intro hcontra
          apply hhead
          have hm := List.mem_map_of_mem idR hx
          simpa [hcontra] using hm
        have hne2 : ¬ (idR a = idR x) := fun hc => this hc.symm
        simp [hstep, hne2]
    · show List.find? _ (step b :: t.map step) = _
      have hne : idR a ≠ idR b := by
        intro hcontra
        apply hhead
        have hm := List.mem_map_of_mem idR hat
        simpa [hcontra] using hm
      rw [List.find?_cons_of_neg _ (by simp [hstep, hne])]
      exact ih a htail hat

/-- Helper: updating the values bound to one key does not change what a
lookup of a different key finds. -/
theorem find?_map_keyUpd (l : List (String × PyVal)) (k1 : String)
    (v1 : PyVal) (k : String) (hne : ¬ (k1 = k)) :
    (l.map (fun p => if p.1 == k1 then (p.1, v1) else p)).find?
      (fun p => p.1 == k) = l.find? (fun p => p.1 == k) := by
  induction l with
  | nil => rfl
  | cons q t ih =>
    show List.find? _ ((if q.1 == k1 then (q.1, v1) else q) :: _) = _
    by_cases hq : ((q.1 == k) = true)
    · have hqk : q.1 = k := by simpa using hq
      have hkk1 : ¬ (q.1 = k1) := by
        rw [hqk]; exact fun hc => hne hc.symm
      rw [if_neg (by simp [hkk1])]
      simp [List.find?_cons, hq]
    · have hq2 : ((if q.1 == k1 then (q.1, v1) else q).1 == k) = false := by
        by_cases h1 : ((q.1 == k1) = true) <;>
          simp [h1] <;> simpa using hq
      simp only [List.find?_cons, hq2,
        show (q.1 == k) = false from by simpa using hq]
      exact ih

/-- Helper: a dict assignment of one key does not change the lookup of a
different key. -/
theorem find?_dictSetStr_ne (l : List (String × PyVal)) (k1 : String)
    (v1 : PyVal) (k : String) (hne : ¬ (k1 = k)) :
    (dictSetStr l k1 v1).find? (fun p => p.1 == k) =
      l.find? (fun p => p.1 == k) := by
  rw [dictSetStr]
  by_cases hany : l.any (fun p => p.1 == k1)
  · rw [if_pos hany]
    exact find?_map_keyUpd l k1 v1 k hne
  · rw [if_neg hany]
    induction l with
    | nil =>
      show List.find? _ [(k1, v1)] = _
      rw [List.find?_cons_of_neg _ (by simp [hne]), List.find?_nil]
    | cons q t ih =>
      have hany2 : ¬ ((t.any fun p => p.1 == k1) = true) := by
        intro hc
        exact hany (by simp [List.any_cons, hc])
      show List.find? _ (q :: (t ++ [(k1, v1)])) = _
      by_cases hq : ((q.1 == k) = true)
      · simp [List.find?_cons, hq]
      · simp only [List.find?_cons,
          show (q.1 == k) = false from by simpa using hq]
        exact ih hany2

/-- Helper: merging keys absent from the update leaves their lookup
untouched. -/
theorem dictMerge_find?_ne (upd : List (String × PyVal)) (k : String)
    (h : ∀ p ∈ upd, ¬ (p.1 = k)) :
    ∀ base : List (String × PyVal),
      (dictMerge base upd).find? (fun p => p.1 == k) =
        base.find? (fun p => p.1 == k) := by
  induction upd with
  | nil => intro base; rfl
  | cons p rest ih =>
    intro base
    show (dictMerge (dictSetStr base p.1 p.2) rest).find? _ = _
    rw [ih (fun p2 hp2 => h p2 (List.mem_cons_of_mem _ hp2))]
    exact find?_dictSetStr_ne base p.1 p.2 k (h p (List.mem_cons_self _ _))

/-- Helper: the persisted interview score payload — `overall_score` merged
with the criteria scores — extracts back to the scalar overall score,
provided the criteria dict carries neither an `overall_score` nor an
`overall` key. -/
theorem overall_from_merged (q : ℚ) (scores : List (String × PyVal))
    (h : ∀ p ∈ scores, ¬ (p.1 = "overall_score") ∧ ¬ (p.1 = "overall")) :
    _overall_from_score (PyVal.dict
      (dictMerge [("overall_score", PyVal.num q)] scores)) = some q := by
  have h1 : (dictMerge [("overall_score", PyVal.num q)] scores).find?
      (fun p => p.1 == "overall_score") =
      some ("overall_score", PyVal.num q) := by
    rw [dictMerge_find?_ne scores _ (fun p hp => (h p hp).1)]
    rfl
  have h2 : (dictMerge [("overall_score", PyVal.num q)] scores).find?
      (fun p => p.1 == "overall") = Option.none := by
    rw [dictMerge_find?_ne scores _ (fun p hp => (h p hp).2)]
    rfl
  show pyFloat (pyOr ((PyVal.dict _).get "overall_score")
    (pyOr ((PyVal.dict _).get "overall") (PyVal.num 0))) = some q
  rw [PyVal.get, PyVal.get, h1, h2]
  by_cases hq : q = 0
  · subst hq
    rfl
  · rw [pyOr, if_pos (by simpa [PyVal.truthy] using hq)]
    rfl

/-- C3: `join` is idempotent.  If a first `join(session_id, student_id)` call
with an accepted password succeeds (starting from a store holding at most one
`studentsession` row for the pair), a second identical call returns the same
`student_session_id`, leaves the store unchanged, and exactly one
`studentsession` row exists for the (session, student) pair. -/
theorem join_session_idempotent
    (db : DB) (student_id sid : ℕ) (password : String)
    (hpair : (pairRows db sid student_id).length ≤ 1)
    (r1 : JoinResp) (db1 : DB)
    (h1 : join_session db student_id (some sid) password =
      Except.ok (r1, db1)) :
    join_session db1 student_id (some sid) password =
      Except.ok (⟨r1.student_session_id, "Already joined this session"⟩, db1) ∧
    (pairRows db1 sid student_id).length = 1 := by
  rw [join_session] at h1
  by_cases hsid : sid = 0
  · subst hsid; simp [natOptTruthy] at h1
  · have ht : natOptTruthy (some sid) = true := by
      simp [natOptTruthy, hsid]
    rw [if_neg (by simp [ht])] at h1
    simp only [Option.getD] at h1
    rcases hs : single? (db.sessions.filter (fun s => s.session_id == sid))
        with e | session
    · rw [hs] at h1; simp [wrap500] at h1
    · rw [hs] at h1
      simp only [wrap500] at h1
      rcases hc : join_checks session password with _ | err
      swap
      · rw [hc] at h1; cases h1
      rw [hc] at h1
      simp only [Except.ok.injEq] at h1
      rw [join_core] at h1
      rcases hf : db.student_sessions.filter
          (fun r => r.session_id == sid && r.student_id == student_id)
          with _ | ⟨r, t⟩
      · -- first call inserted a fresh row
        rw [hf] at h1
        have hdb1 : db1 = { db with
            student_sessions := db.student_sessions ++
              [⟨db.next_id, sid, student_id, Option.none, Option.none, 0⟩],
            next_id := db.next_id + 1 } := by
          cases h1; rfl
        have hr1 : r1.student_session_id = db.next_id := by
          cases h1; rfl
        have hfilter1 : db1.student_sessions.filter
            (fun r => r.session_id == sid && r.student_id == student_id) =
            [⟨db.next_id, sid, student_id, Option.none, Option.none, 0⟩] := by
          subst hdb1
          simp [List.filter_append, hf]
        constructor
        · rw [join_session, if_neg (by simp [ht])]
          simp only [Option.getD]
          have hsess1 : db1.sessions = db.sessions := by rw [hdb1]
          rw [hsess1, hs]
          simp only [wrap500]
          rw [hc, join_core, hfilter1, hr1]
        · rw [pairRows, hfilter1]; rfl
      · -- an existing row was returned
        rw [hf] at h1
        have hdb1 : db1 = db := by cases h1; rfl
        have hr1 : r1.student_session_id = r.student_session_id := by
          cases h1; rfl
        have ht0 : t = [] := by
          have := hpair
          rw [pairRows, hf] at this
          simpa using this
        constructor
        · rw [join_session, if_neg (by simp [ht])]
          simp only [Option.getD]
          rw [hdb1, hs]
          simp only [wrap500]
          rw [hc, join_core, hf, hr1]
        · rw [hdb1, pairRows, hf, ht0]; rfl

/-- C3 witness: on the concrete one-session store, joining twice as student 5
returns student_session_id 100 both times and exactly one row exists. -/
theorem join_session_idempotent_witness :
    join_session exDb1 5 (some 1) "" =
      Except.ok (⟨100, "Already joined this session"⟩, exDb1) ∧
    (pairRows exDb1 1 5).length = 1 :=
  join_session_idempotent exDb0 5 1 "" (by decide)
    ⟨100, "Joined session successfully"⟩ exDb1 (by rfl)

/-- Helper: a `writeView` through `updRowStd` never moves a row to another
student session. -/
theorem writeView_ssid_std (locals : List LocalAnswerState)
    (a : AnswerRow) :
    (writeView (fun r => r.answer_id) updRowStd locals
      a).student_session_id = a.student_session_id := by
  rw [writeView]
  split <;> rfl

/-- Helper: a `writeView` through `updRowInt` never moves a row to another
student session. -/
theorem writeView_ssid_int (locals : List LocalAnswerState)
    (a : InterviewAnswerRow) :
    (writeView (fun r => r.answer_id) updRowInt locals
      a).student_session_id = a.student_session_id := by
  rw [writeView]
  split <;> rfl

/-- Helper: the standard evaluation step keeps the answer id. -/
theorem evalStepStd_answer_id (oc : EndOracle) (st : String)
    (qs : List QuestionRow) (a : AnswerRow) :
    (evalStepStd oc st qs a).answer_id = a.answer_id := by
  cases hq : qs.find? (fun q => q.question_id == a.question_id) with
  | none => simp [evalStepStd, hq, AnswerRow.toLocal]
  | some q => simp [evalStepStd, hq]

/-- Helper: the standard step persists exactly the in-memory score. -/
theorem evalStepStd_db_score (oc : EndOracle) (st : String)
    (qs : List QuestionRow) (a : AnswerRow) :
    (evalStepStd oc st qs a).db_score = (evalStepStd oc st qs a).ai_score := by
  cases hq : qs.find? (fun q => q.question_id == a.question_id) with
  | none => simp [evalStepStd, hq, AnswerRow.toLocal]
  | some q => simp [evalStepStd, hq]

/-- Helper: a skipped standard answer keeps its stored score in memory. -/
theorem evalStepStd_not_wrote (oc : EndOracle) (st : String)
    (qs : List QuestionRow) (a : AnswerRow)
    (hw : (evalStepStd oc st qs a).wrote = false) :
    (evalStepStd oc st qs a).ai_score = a.ai_score := by
  cases hq : qs.find? (fun q => q.question_id == a.question_id) with
  | none => simp [evalStepStd, hq, AnswerRow.toLocal]
  | some q => exact absurd hw (by simp [evalStepStd, hq])

/-- Helper: the interview evaluation step keeps the answer id. -/
theorem evalStepInt_answer_id (oc : EndOracle) (st : String)
    (qs : List InterviewQuestionRow) (a : InterviewAnswerRow) :
    (evalStepInt oc st qs a).answer_id = a.answer_id := by
  cases hq : qs.find? (fun q =>
      q.question_interview_id == a.question_interview_id) with
  | none => simp [evalStepInt, hq, InterviewAnswerRow.toLocal]
  | some q => simp [evalStepInt, hq]

/-- Helper: a skipped interview answer keeps its stored score in memory. -/
theorem evalStepInt_not_wrote (oc : EndOracle) (st : String)
    (qs : List InterviewQuestionRow) (a : InterviewAnswerRow)
    (hw : (evalStepInt oc st qs a).wrote = false) :
    (evalStepInt oc st qs a).ai_score = a.ai_score := by
  cases hq : qs.find? (fun q =>
      q.question_interview_id == a.question_interview_id) with
  | none => simp [evalStepInt, hq, InterviewAnswerRow.toLocal]
  | some q => exact absurd hw (by simp [evalStepInt, hq])

/-- Helper: the structured score an interview step persists extracts back to
the same scalar the step keeps in memory, provided the evaluator's criteria
dicts never carry an `overall_score`/`overall` key of their own. -/
theorem evalStepInt_extract (oc : EndOracle) (st : String)
    (qs : List InterviewQuestionRow) (a : InterviewAnswerRow)
    (hsc : ∀ c ans ref qt st2,
      ∀ p ∈ (oc.evalAnswer c ans ref qt st2).scores,
        ¬ (p.1 = "overall_score") ∧ ¬ (p.1 = "overall")) :
    _overall_from_score (evalStepInt oc st qs a).db_score =
      _overall_from_score (evalStepInt oc st qs a).ai_score := by
  cases hq : qs.find? (fun q =>
      q.question_interview_id == a.question_interview_id) with
  | none => simp [evalStepInt, hq, InterviewAnswerRow.toLocal]
  | some q =>
    have hover := overall_from_merged
      (oc.evalAnswer q.content a.answer_text
        (pyOrStr q.reference_answer noRefAnswer) q.question_type
        st).overall_score
      (oc.evalAnswer q.content a.answer_text
        (pyOrStr q.reference_answer noRefAnswer) q.question_type st).scores
      (fun p hp => hsc _ _ _ _ _ p hp)
    simp only [evalStepInt, hq]
    rw [hover]
    rfl

/-- Helper: what a successful standard `end` tail returns and persists —
the mean of the summed in-memory scores, stored on the session row. -/
theorem endStdFinish_mean (db : DB) (oc : EndOracle) (ssid : ℕ)
    (qs1 dbQ1 : List QuestionRow) (locals : List LocalAnswerState)
    (dbA1 : List AnswerRow) (resp : EndResp) (db2 : DB)
    (h : endStdFinish db oc ssid qs1 dbQ1 locals dbA1 =
      Except.ok (resp, db2)) :
    ∃ s, sumOpt (fun la => scalar_or_zero la.ai_score) locals = some s ∧
      resp.score_total =
        (if locals.length == 0 then (0 : ℚ)
         else s / (locals.length : ℚ)) ∧
      db2.answers = dbA1 ∧
      db2.student_sessions = db.student_sessions.map (fun r =>
        if r.student_session_id == ssid then
          { r with
            score_total := some resp.score_total
            ai_overall_feedback := some resp.ai_overall_feedback }
        else r) := by
  rcases hs : sumOpt (fun la => scalar_or_zero la.ai_score) locals with _ | s
  · rw [endStdFinish, hs] at h
    cases h
  · rcases hp : oc.persistFinal with m | u
    · rw [endStdFinish, hs, hp] at h
      cases h
    · rw [endStdFinish, hs, hp] at h
      refine ⟨s, hs, ?_, ?_, ?_⟩
      · exact (congrArg (fun x => match x with
          | Except.ok p => p.1.score_total =
              (if locals.length == 0 then (0 : ℚ)
               else s / (locals.length : ℚ))
          | Except.error _ => True) h).mp rfl
      · exact (congrArg (fun x => match x with
          | Except.ok p => p.2.answers = dbA1
          | Except.error _ => True) h).mp rfl
      · exact (congrArg (fun x => match x with
          | Except.ok p => p.2.student_sessions =
              db.student_sessions.map (fun r =>
                if r.student_session_id == ssid then
                  { r with
                    score_total := some p.1.score_total
                    ai_overall_feedback := some p.1.ai_overall_feedback }
                else r)
          | Except.error _ => True) h).mp rfl

/-- Helper: what a successful interview `end` tail returns and persists —
the mean of the summed extracted scores, stored on the session row. -/
theorem endIntFinish_mean (db : DB) (oc : EndOracle) (ssid : ℕ)
    (qs1 dbQ1 : List InterviewQuestionRow)
    (locals : List LocalAnswerState) (dbA1 : List InterviewAnswerRow)
    (resp : EndResp) (db2 : DB)
    (h : endIntFinish db oc ssid qs1 dbQ1 locals dbA1 =
      Except.ok (resp, db2)) :
    ∃ s, sumOpt (fun la => _overall_from_score la.ai_score) locals =
        some s ∧
      resp.score_total =
        (if locals.length == 0 then (0 : ℚ)
         else s / (locals.length : ℚ)) ∧
      db2.interview_answers = dbA1 ∧
      db2.student_sessions = db.student_sessions.map (fun r =>
        if r.student_session_id == ssid then
          { r with
            score_total := some resp.score_total
            ai_overall_feedback := some resp.ai_overall_feedback }
        else r) := by
  rcases hs : sumOpt (fun la => _overall_from_score la.ai_score) locals
    with _ | s
  · rw [endIntFinish, hs] at h
    cases h
  · rcases hp : oc.persistFinal with m | u
    · rw [endIntFinish, hs, hp] at h
      cases h
    · rw [endIntFinish, hs, hp] at h
      refine ⟨s, hs, ?_, ?_, ?_⟩
      · exact (congrArg (fun x => match x with
          | Except.ok p => p.1.score_total =
              (if locals.length == 0 then (0 : ℚ)
               else s / (locals.length : ℚ))
          | Except.error _ => True) h).mp rfl
      · exact (congrArg (fun x => match x with
          | Except.ok p => p.2.interview_answers = dbA1
          | Except.error _ => True) h).mp rfl
      · exact (congrArg (fun x => match x with
          | Except.ok p => p.2.student_sessions =
              db.student_sessions.map (fun r =>
                if r.student_session_id == ssid then
                  { r with
                    score_total := some p.1.score_total
                    ai_overall_feedback := some p.1.ai_overall_feedback }
                else r)
          | Except.error _ => True) h).mp rfl

/-- Helper: the mean property for the standard evaluation pass, phrased
over the tail it reduces to. -/
theorem end_std_eval_core (db : DB) (oc : EndOracle) (ssid : ℕ)
    (st : String) (qs1 dbQ1 : List QuestionRow) (resp : EndResp) (db2 : DB)
    (hnd : (db.answers.map (fun a => a.answer_id)).Nodup)
    (h : endStdFinish db oc ssid qs1 dbQ1
      ((db.answers.filter (fun a => a.student_session_id == ssid)).map
        (evalStepStd oc st qs1))
      (applyEvalWrites (fun r => r.answer_id) updRowStd db.answers
        ((db.answers.filter (fun a => a.student_session_id == ssid)).map
          (evalStepStd oc st qs1))) = Except.ok (resp, db2)) :
    db2.student_sessions = db.student_sessions.map (fun r =>
      if r.student_session_id == ssid then
        { r with
          score_total := some resp.score_total
          ai_overall_feedback := some resp.ai_overall_feedback }
      else r) ∧
    ∃ s, sumOpt (fun a => _overall_from_score a.ai_score)
        (db2.answers.filter (fun a => a.student_session_id == ssid)) =
          some s ∧
      resp.score_total = s / ((db2.answers.filter
        (fun a => a.student_session_id == ssid)).length : ℚ) := by
  obtain ⟨s, hsum, hscore, hans, hss⟩ :=
    endStdFinish_mean db oc ssid qs1 dbQ1 _ _ resp db2 h
  have hstepid : ∀ a : AnswerRow,
      (evalStepStd oc st qs1 a).answer_id = a.answer_id :=
    fun a => evalStepStd_answer_id oc st qs1 a
  have hnd0 : ((db.answers.filter
      (fun a => a.student_session_id == ssid)).map
      (fun a => a.answer_id)).Nodup :=
    List.Nodup.sublist
      ((List.filter_sublist db.answers).map (fun a => a.answer_id)) hnd
  have hndlocals : (((db.answers.filter
      (fun a => a.student_session_id == ssid)).map
      (evalStepStd oc st qs1)).map
      (fun la => la.answer_id)).Nodup := by
    rw [List.map_map]
    have he : ∀ a ∈ db.answers.filter
        (fun a => a.student_session_id == ssid),
        ((fun la : LocalAnswerState => la.answer_id) ∘
          evalStepStd oc st qs1) a = a.answer_id :=
      fun a _ => hstepid a
    rw [List.map_congr_left he]
    exact hnd0
  have hupd : ∀ (r : AnswerRow) (la : LocalAnswerState),
      (updRowStd r la).answer_id = r.answer_id := fun r la => rfl
  have hmap := applyEvalWrites_eq_map (fun r : AnswerRow => r.answer_id)
    updRowStd hupd
    ((db.answers.filter (fun a => a.student_session_id == ssid)).map
      (evalStepStd oc st qs1)) db.answers hndlocals
  have hcomm := filter_map_invariant
    (writeView (fun r : AnswerRow => r.answer_id) updRowStd
      ((db.answers.filter (fun a => a.student_session_id == ssid)).map
        (evalStepStd oc st qs1)))
    (fun a => a.student_session_id == ssid) db.answers
    (fun a => by simp only [writeView_ssid_std])
  have hfinal : db2.answers.filter
      (fun a => a.student_session_id == ssid) =
      (db.answers.filter (fun a => a.student_session_id == ssid)).map
        (writeView (fun r : AnswerRow => r.answer_id) updRowStd
          ((db.answers.filter
            (fun a => a.student_session_id == ssid)).map
            (evalStepStd oc st qs1))) := by
    rw [hans, hmap, hcomm]
  rw [sumOpt_map] at hsum
  have hpt : ∀ a ∈ db.answers.filter
      (fun a => a.student_session_id == ssid),
      _overall_from_score ((writeView (fun r : AnswerRow => r.answer_id)
        updRowStd ((db.answers.filter
          (fun a => a.student_session_id == ssid)).map
          (evalStepStd oc st qs1)) a).ai_score) =
      scalar_or_zero ((evalStepStd oc st qs1 a).ai_score) := by
    intro a ha
    obtain ⟨y, hy⟩ := sumOpt_some_elem hsum a ha
    have hy2 : scalar_or_zero ((evalStepStd oc st qs1 a).ai_score) =
        some y := hy
    have hW : (writeView (fun r : AnswerRow => r.answer_id) updRowStd
        ((db.answers.filter
          (fun a => a.student_session_id == ssid)).map
          (evalStepStd oc st qs1)) a).ai_score =
        (evalStepStd oc st qs1 a).ai_score := by
      rw [writeView]
      rw [find?_map_step (fun r : AnswerRow => r.answer_id)
        (evalStepStd oc st qs1) hstepid _ a hnd0 ha]
      by_cases hw : ((evalStepStd oc st qs1 a).wrote = true)
      · rw [if_pos hw]
        exact evalStepStd_db_score oc st qs1 a
      · rw [if_neg hw]
        exact (evalStepStd_not_wrote oc st qs1 a
          (by simpa using hw)).symm
    rw [hW, scalar_extract_agree hy2, hy2]
  refine ⟨hss, s, ?_, ?_⟩
  · rw [hfinal, sumOpt_map]
    exact (sumOpt_congr hpt).trans hsum
  · rw [hscore, hfinal]
    simp only [List.length_map]
    by_cases h0 : ((db.answers.filter
        (fun a => a.student_session_id == ssid)).length = 0)
    · rw [h0]
      simp
    · rw [if_neg (by simpa using h0)]

/-- Helper: the mean property for the standard path when every answer is
already scored and no per-answer write occurs. -/
theorem end_std_plain_core (db : DB) (oc : EndOracle) (ssid : ℕ)
    (qsX : List QuestionRow) (resp : EndResp) (db2 : DB)
    (h : endStdFinish db oc ssid qsX db.questions
      ((db.answers.filter (fun a => a.student_session_id == ssid)).map
        AnswerRow.toLocal) db.answers = Except.ok (resp, db2)) :
    db2.student_sessions = db.student_sessions.map (fun r =>
      if r.student_session_id == ssid then
        { r with
          score_total := some resp.score_total
          ai_overall_feedback := some resp.ai_overall_feedback }
      else r) ∧
    ∃ s, sumOpt (fun a => _overall_from_score a.ai_score)
        (db2.answers.filter (fun a => a.student_session_id == ssid)) =
          some s ∧
      resp.score_total = s / ((db2.answers.filter
        (fun a => a.student_session_id == ssid)).length : ℚ) := by
  obtain ⟨s, hsum, hscore, hans, hss⟩ :=
    endStdFinish_mean db oc ssid qsX db.questions _ _ resp db2 h
  have hsum2 : sumOpt (fun a : AnswerRow => scalar_or_zero a.ai_score)
      (db.answers.filter (fun a => a.student_session_id == ssid)) =
      some s := by
    rw [sumOpt_map] at hsum
    exact hsum
  refine ⟨hss, s, ?_, ?_⟩
  · rw [hans]
    refine (sumOpt_congr ?_).trans hsum2
    intro a ha
    obtain ⟨y, hy⟩ := sumOpt_some_elem hsum2 a ha
    rw [scalar_extract_agree hy, hy]
  · rw [hscore, hans]
    simp only [List.length_map]
    by_cases h0 : ((db.answers.filter
        (fun a => a.student_session_id == ssid)).length = 0)
    · rw [h0]
      simp
    · rw [if_neg (by simpa using h0)]

/-- Helper: the mean property for the whole standard branch of `end`. -/
theorem end_std_mean (db : DB) (oc : EndOracle) (ssid : ℕ)
    (session : SessionRow) (resp : EndResp) (db2 : DB)
    (hnd : (db.answers.map (fun a => a.answer_id)).Nodup)
    (h : end_std db oc ssid session = Except.ok (resp, db2)) :
    db2.student_sessions = db.student_sessions.map (fun r =>
      if r.student_session_id == ssid then
        { r with
          score_total := some resp.score_total
          ai_overall_feedback := some resp.ai_overall_feedback }
      else r) ∧
    ∃ s, sumOpt (fun a => _overall_from_score a.ai_score)
        (db2.answers.filter (fun a => a.student_session_id == ssid)) =
          some s ∧
      resp.score_total = s / ((db2.answers.filter
        (fun a => a.student_session_id == ssid)).length : ℚ) := by
  rw [end_std] at h
  split at h
  · cases h
  split at h
  · rw [end_std_eval] at h
    exact end_std_eval_core db oc ssid session.session_type _ _ resp db2
      hnd h
  · exact end_std_plain_core db oc ssid _ resp db2 h

/-- Helper: the mean property for the interview evaluation pass, phrased
over the tail it reduces to. -/
theorem end_int_eval_core (db : DB) (oc : EndOracle) (ssid : ℕ)
    (st : String) (qs1 dbQ1 : List InterviewQuestionRow) (resp : EndResp)
    (db2 : DB)
    (hnd : (db.interview_answers.map (fun a => a.answer_id)).Nodup)
    (hsc : ∀ c ans ref qt st2,
      ∀ p ∈ (oc.evalAnswer c ans ref qt st2).scores,
        ¬ (p.1 = "overall_score") ∧ ¬ (p.1 = "overall"))
    (h : endIntFinish db oc ssid qs1 dbQ1
      ((db.interview_answers.filter
        (fun a => a.student_session_id == ssid)).map
        (evalStepInt oc st qs1))
      (applyEvalWrites (fun r => r.answer_id) updRowInt
        db.interview_answers
        ((db.interview_answers.filter
          (fun a => a.student_session_id == ssid)).map
          (evalStepInt oc st qs1))) = Except.ok (resp, db2)) :
    db2.student_sessions = db.student_sessions.map (fun r =>
      if r.student_session_id == ssid then
        { r with
          score_total := some resp.score_total
          ai_overall_feedback := some resp.ai_overall_feedback }
      else r) ∧
    ∃ s, sumOpt (fun a => _overall_from_score a.ai_score)
        (db2.interview_answers.filter
          (fun a => a.student_session_id == ssid)) = some s ∧
      resp.score_total = s / ((db2.interview_answers.filter
        (fun a => a.student_session_id == ssid)).length : ℚ) := by
  obtain ⟨s, hsum, hscore, hans, hss⟩ :=
    endIntFinish_mean db oc ssid qs1 dbQ1 _ _ resp db2 h
  have hstepid : ∀ a : InterviewAnswerRow,
      (evalStepInt oc st qs1 a).answer_id = a.answer_id :=
    fun a => evalStepInt_answer_id oc st qs1 a
  have hnd0 : ((db.interview_answers.filter
      (fun a => a.student_session_id == ssid)).map
      (fun a => a.answer_id)).Nodup :=
    List.Nodup.sublist
      ((List.filter_sublist db.interview_answers).map
        (fun a => a.answer_id)) hnd
  have hndlocals : (((db.interview_answers.filter
      (fun a => a.student_session_id == ssid)).map
      (evalStepInt oc st qs1)).map
      (fun la => la.answer_id)).Nodup := by
    rw [List.map_map]
    have he : ∀ a ∈ db.interview_answers.filter
        (fun a => a.student_session_id == ssid),
        ((fun la : LocalAnswerState => la.answer_id) ∘
          evalStepInt oc st qs1) a = a.answer_id :=
      fun a _ => hstepid a
    rw [List.map_congr_left he]
    exact hnd0
  have hupd : ∀ (r : InterviewAnswerRow) (la : LocalAnswerState),
      (updRowInt r la).answer_id = r.answer_id := fun r la => rfl
  have hmap := applyEvalWrites_eq_map
    (fun r : InterviewAnswerRow => r.answer_id) updRowInt hupd
    ((db.interview_answers.filter
      (fun a => a.student_session_id == ssid)).map
      (evalStepInt oc st qs1)) db.interview_answers hndlocals
  have hcomm := filter_map_invariant
    (writeView (fun r : InterviewAnswerRow => r.answer_id) updRowInt
      ((db.interview_answers.filter
        (fun a => a.student_session_id == ssid)).map
        (evalStepInt oc st qs1)))
    (fun a => a.student_session_id == ssid) db.interview_answers
    (fun a => by simp only [writeView_ssid_int])
  have hfinal : db2.interview_answers.filter
      (fun a => a.student_session_id == ssid) =
      (db.interview_answers.filter
        (fun a => a.student_session_id == ssid)).map
        (writeView (fun r : InterviewAnswerRow => r.answer_id) updRowInt
          ((db.interview_answers.filter
            (fun a => a.student_session_id == ssid)).map
            (evalStepInt oc st qs1))) := by
    rw [hans, hmap, hcomm]
  rw [sumOpt_map] at hsum
  have hpt : ∀ a ∈ db.interview_answers.filter
      (fun a => a.student_session_id == ssid),
      _overall_from_score ((writeView
        (fun r : InterviewAnswerRow => r.answer_id) updRowInt
        ((db.interview_answers.filter
          (fun a => a.student_session_id == ssid)).map
          (evalStepInt oc st qs1)) a).ai_score) =
      _overall_from_score ((evalStepInt oc st qs1 a).ai_score) := by
    intro a ha
    rw [writeView]
    rw [find?_map_step (fun r : InterviewAnswerRow => r.answer_id)
      (evalStepInt oc st qs1) hstepid _ a hnd0 ha]
    by_cases hw : ((evalStepInt oc st qs1 a).wrote = true)
    · rw [if_pos hw]
      exact evalStepInt_extract oc st qs1 a hsc
    · rw [if_neg hw]
      rw [evalStepInt_not_wrote oc st qs1 a (by simpa using hw)]
  refine ⟨hss, s, ?_, ?_⟩
  · rw [hfinal, sumOpt_map]
    exact (sumOpt_congr hpt).trans hsum
  · rw [hscore, hfinal]
    simp only [List.length_map]
    by_cases h0 : ((db.interview_answers.filter
        (fun a => a.student_session_id == ssid)).length = 0)
    · rw [h0]
      simp
    · rw [if_neg (by simpa using h0)]

/-- Helper: the mean property for the interview path when every answer is
already scored and no per-answer write occurs. -/
theorem end_int_plain_core (db : DB) (oc : EndOracle) (ssid : ℕ)
    (qsX : List InterviewQuestionRow) (resp : EndResp) (db2 : DB)
    (h : endIntFinish db oc ssid qsX db.interview_questions
      ((db.interview_answers.filter
        (fun a => a.student_session_id == ssid)).map
        InterviewAnswerRow.toLocal) db.interview_answers =
      Except.ok (resp, db2)) :
    db2.student_sessions = db.student_sessions.map (fun r =>
      if r.student_session_id == ssid then
        { r with
          score_total := some resp.score_total
          ai_overall_feedback := some resp.ai_overall_feedback }
      else r) ∧
    ∃ s, sumOpt (fun a => _overall_from_score a.ai_score)
        (db2.interview_answers.filter
          (fun a => a.student_session_id == ssid)) = some s ∧
      resp.score_total = s / ((db2.interview_answers.filter
        (fun a => a.student_session_id == ssid)).length : ℚ) := by
  obtain ⟨s, hsum, hscore, hans, hss⟩ :=
    endIntFinish_mean db oc ssid qsX db.interview_questions _ _ resp db2 h
  have hsum2 : sumOpt
      (fun a : InterviewAnswerRow => _overall_from_score a.ai_score)
      (db.interview_answers.filter
        (fun a => a.student_session_id == ssid)) = some s := by
    rw [sumOpt_map] at hsum
    exact hsum
  refine ⟨hss, s, ?_, ?_⟩
  · rw [hans]
    exact hsum2
  · rw [hscore, hans]
    simp only [List.length_map]
    by_cases h0 : ((db.interview_answers.filter
        (fun a => a.student_session_id == ssid)).length = 0)
    · rw [h0]
      simp
    · rw [if_neg (by simpa using h0)]

/-- Helper: the mean property for the whole interview branch of `end`. -/
theorem end_int_mean (db : DB) (oc : EndOracle) (ssid : ℕ)
    (session : SessionRow) (resp : EndResp) (db2 : DB)
    (hnd : (db.interview_answers.map (fun a => a.answer_id)).Nodup)
    (hsc : ∀ c ans ref qt st2,
      ∀ p ∈ (oc.evalAnswer c ans ref qt st2).scores,
        ¬ (p.1 = "overall_score") ∧ ¬ (p.1 = "overall"))
    (h : end_int db oc ssid session = Except.ok (resp, db2)) :
    db2.student_sessions = db.student_sessions.map (fun r =>
      if r.student_session_id == ssid then
        { r with
          score_total := some resp.score_total
          ai_overall_feedback := some resp.ai_overall_feedback }
      else r) ∧
    ∃ s, sumOpt (fun a => _overall_from_score a.ai_score)
        (db2.interview_answers.filter
          (fun a => a.student_session_id == ssid)) = some s ∧
      resp.score_total = s / ((db2.interview_answers.filter
        (fun a => a.student_session_id == ssid)).length : ℚ) := by
  rw [end_int] at h
  split at h
  · cases h
  split at h
  · split at h
    · cases h
    split at h
    · cases h
    rw [end_int_eval] at h
    exact end_int_eval_core db oc ssid session.session_type _ _ resp db2
      hnd hsc h
  · exact end_int_plain_core db oc ssid _ resp db2 h

/-- Helper: after the final session update, the row carrying the ended
student session holds exactly the returned total. -/
theorem persisted_score_lookup (rows : List StudentSessionRow) (ssid : ℕ)
    (q : ℚ) (fbs : String) :
    ∀ r ∈ rows.map (fun r0 =>
      if r0.student_session_id == ssid then
        { r0 with
          score_total := some q
          ai_overall_feedback := some fbs }
      else r0),
      r.student_session_id = ssid → r.score_total = some q := by
  intro r hr hid
  obtain ⟨r0, h0, he⟩ := List.mem_map.mp hr
  by_cases hb : ((r0.student_session_id == ssid) = true)
  · rw [if_pos hb] at he
    rw [← he]
  · rw [if_neg hb] at he
    subst he
    exact absurd hid (by simpa using hb)

/-- C2: on every successful `end` call the returned `score_total` — also the
value persisted on the ended student-session row — is the arithmetic mean of
the extracted scalar scores of the session's stored answer rows: the sum of
`_overall_from_score` (a plain number counts as itself, a structured map
through its `overall_score`/`overall` key, anything else as 0) over the
rows of the session divided by their count, on the standard answer table
for standard sessions (left disjunct) and on the interview answer table for
interview sessions (right disjunct).  Hypotheses: answer ids are pairwise
distinct, and the evaluator's criteria dicts never carry an
`overall_score`/`overall` key of their own (otherwise the merged persisted
dict would shadow the scalar overall score). -/
theorem end_score_total_is_mean (db : DB) (oc : EndOracle)
    (ssid stid : ℕ) (resp : EndResp) (db2 : DB)
    (hndS : (db.answers.map (fun a => a.answer_id)).Nodup)
    (hndI : (db.interview_answers.map (fun a => a.answer_id)).Nodup)
    (hsc : ∀ c ans ref qt st2,
      ∀ p ∈ (oc.evalAnswer c ans ref qt st2).scores,
        ¬ (p.1 = "overall_score") ∧ ¬ (p.1 = "overall"))
    (h : end_session db oc ssid stid = Except.ok (resp, db2)) :
    (∀ r ∈ db2.student_sessions, r.student_session_id = ssid →
      r.score_total = some resp.score_total) ∧
    ((∃ s, sumOpt (fun a => _overall_from_score a.ai_score)
        (db2.answers.filter (fun a => a.student_session_id == ssid)) =
          some s ∧
      resp.score_total = s / ((db2.answers.filter
        (fun a => a.student_session_id == ssid)).length : ℚ)) ∨
     (∃ s, sumOpt (fun a => _overall_from_score a.ai_score)
        (db2.interview_answers.filter
          (fun a => a.student_session_id == ssid)) = some s ∧
      resp.score_total = s / ((db2.interview_answers.filter
        (fun a => a.student_session_id == ssid)).length : ℚ))) := by
  rw [end_session.eq_def] at h
  split at h
  · cases h
  split at h
  · cases h
  split at h
  · cases h
  split at h
  · obtain ⟨hss, s, hsum, hmean⟩ :=
      end_int_mean db oc ssid _ resp db2 hndI hsc h
    exact ⟨fun r hr hid => persisted_score_lookup db.student_sessions
        ssid resp.score_total resp.ai_overall_feedback r (hss ▸ hr) hid,
      Or.inr ⟨s, hsum, hmean⟩⟩
  · obtain ⟨hss, s, hsum, hmean⟩ :=
      end_std_mean db oc ssid _ resp db2 hndS h
    exact ⟨fun r hr hid => persisted_score_lookup db.student_sessions
        ssid resp.score_total resp.ai_overall_feedback r (hss ▸ hr) hid,
      Or.inl ⟨s, hsum, hmean⟩⟩

/-- C2 witness: on the concrete scored practice session the call succeeds
and the mean property holds of its returned payload and post-state. -/
theorem end_score_total_is_mean_witness :
    (exDbC1.answers.map (fun a => a.answer_id)).Nodup ∧
    (exDbC1.interview_answers.map (fun a => a.answer_id)).Nodup ∧
    (∀ c ans ref qt st2,
      ∀ p ∈ ((exEndOracle
          (Except.ok ())).evalAnswer c ans ref qt st2).scores,
        ¬ (p.1 = "overall_score") ∧ ¬ (p.1 = "overall")) ∧
    exEndC2 = Except.ok ((okEndOf exEndC2).1, (okEndOf exEndC2).2) ∧
    ((∀ r ∈ (okEndOf exEndC2).2.student_sessions,
        r.student_session_id = 100 →
        r.score_total = some (okEndOf exEndC2).1.score_total) ∧
     ((∃ s, sumOpt (fun a => _overall_from_score a.ai_score)
          ((okEndOf exEndC2).2.answers.filter
            (fun a => a.student_session_id == 100)) = some s ∧
        (okEndOf exEndC2).1.score_total =
          s / (((okEndOf exEndC2).2.answers.filter
            (fun a => a.student_session_id == 100)).length : ℚ)) ∨
      (∃ s, sumOpt (fun a => _overall_from_score a.ai_score)
          ((okEndOf exEndC2).2.interview_answers.filter
            (fun a => a.student_session_id == 100)) = some s ∧
        (okEndOf exEndC2).1.score_total =
          s / (((okEndOf exEndC2).2.interview_answers.filter
            (fun a => a.student_session_id == 100)).length : ℚ)))) := by
  have hsc : ∀ c ans ref qt st2,
      ∀ p ∈ ((exEndOracle
          (Except.ok ())).evalAnswer c ans ref qt st2).scores,
        ¬ (p.1 = "overall_score") ∧ ¬ (p.1 = "overall") := by
    intro c ans ref qt st2 p hp
    have hp2 : p = ("correctness", PyVal.num 6) := by
      simpa [exEndOracle] using hp
    subst hp2
    exact ⟨by decide, by decide⟩
  exact ⟨by decide, by decide, hsc, by rfl,
    end_score_total_is_mean exDbC1 (exEndOracle (Except.ok ())) 100 5
      (okEndOf exEndC2).1 (okEndOf exEndC2).2 (by decide) (by decide) hsc
      (by rfl)⟩

end IviewNeu
